import Mathlib

/-!
Verification of the funnel-linkage, cascade-delete, ordering, tracking and
export logic of the tejastrain repository, shallowly embedded in Lean 4.

Rows of the persistent store are modelled as structures, tables as lists of
rows, and each admin or reader operation as a pure function on an explicit
database state.  Effectful collaborators (HTTP fetches, the hosted store,
session storage) are modelled by passing their outcomes in as `Except`
values, so that the error-handling paths of the source are visible in the
embedding.
-/

namespace Tejastrain

/-! ## Data model (tables of the store, from the migration and the TS row types) -/

/-- Row of `blogs` (fields used by the admin console and export). -/
structure Blog where
  id : String
  title : String
  slug : String
  author : String
  status : String
  content : String
  featured_image : Option String
  deriving DecidableEq, Repr

/-- Row of `related_searches`. -/
structure RelatedSearch where
  id : String
  blog_id : String
  search_text : String
  order_index : Int
  wr : Int
  deriving DecidableEq, Repr

/-- Row of `web_results`. -/
structure WebResult where
  id : String
  related_search_id : String
  title : String
  url : String
  description : Option String
  logo_url : Option String
  order_index : Int
  is_sponsored : Bool
  deriving DecidableEq, Repr

/-- Row of `pre_landing_config`. -/
structure PreLandingConfig where
  id : String
  related_search_id : String
  logo_url : Option String
  logo_position : String
  main_image_url : Option String
  headline : Option String
  description : Option String
  background_color : String
  background_image_url : Option String
  button_text : String
  destination_url : Option String
  deriving DecidableEq, Repr

/-- Row of `analytics_events` (the `blog_id` and `related_search_id` columns
are nullable in the schema). -/
structure AnalyticsEvent where
  event_type : String
  blog_id : Option String
  related_search_id : Option String
  session_id : String
  ip_address : String
  user_agent : String
  device_type : String
  country : String
  source : String
  deriving DecidableEq, Repr

/-- Row of `email_submissions`. -/
structure EmailSubmission where
  email : String
  related_search_id : Option String
  session_id : String
  ip_address : String
  deriving DecidableEq, Repr

/-- The database state: one list per table touched by the verified operations. -/
structure DB where
  blogs : List Blog
  relatedSearches : List RelatedSearch
  webResults : List WebResult
  preLandingConfigs : List PreLandingConfig
  analyticsEvents : List AnalyticsEvent
  emailSubmissions : List EmailSubmission
  deriving DecidableEq, Repr

/-! ## Sponsored-result ordering (`fetchWebResults` in `src/pages/WebResults.tsx`)

The page fetches the rows and then sorts them with the comparator

```
(a, b) => { if (a.is_sponsored && !b.is_sponsored) return -1;
            if (!a.is_sponsored && b.is_sponsored) return 1;
            return a.order_index - b.order_index; }
```

`Array.prototype.sort` is required by ECMAScript to be a stable sort with
respect to the comparator; we embed it as a stable sort (insertion sort)
with the comparator translated verbatim. -/

/-- The comparator passed to `resultsData.sort` in `fetchWebResults`. -/
def compareResults (a b : WebResult) : Int :=
  if a.is_sponsored && !b.is_sponsored then -1
  else if !a.is_sponsored && b.is_sponsored then 1
  else a.order_index - b.order_index

/-- The sort relation induced by the comparator: `a` may come before `b`. -/
def cmpLe (a b : WebResult) : Prop := compareResults a b ≤ 0

instance : DecidableRel cmpLe := fun a b => by unfold cmpLe; infer_instance

instance : IsTotal WebResult cmpLe where
  total a b := by
    unfold cmpLe compareResults
    cases ha : a.is_sponsored <;> cases hb : b.is_sponsored <;> simp <;> omega

instance : IsTrans WebResult cmpLe where
  trans a b c := by
    unfold cmpLe compareResults
    cases a.is_sponsored <;> cases b.is_sponsored <;> cases c.is_sponsored <;>
      simp <;> omega

/-- The sorted list produced by `fetchWebResults` before rendering. -/
def sortWebResults (l : List WebResult) : List WebResult :=
  List.insertionSort cmpLe l

end Tejastrain

namespace Tejastrain

/-! ## Store semantics of deletes (from the migration)

The migration declares `related_searches.blog_id`,
`web_results.related_search_id`, `pre_landing_config.related_search_id`,
`analytics_events.blog_id` and `analytics_events.related_search_id` with
`ON DELETE CASCADE`, while `email_submissions.related_search_id` is a
plain foreign key (NO ACTION).  A delete on `related_searches` therefore
fails with a foreign-key violation when a surviving `email_submissions`
row still references a deleted search (the statement is rolled back), and
on success it cascades away the `web_results`, `pre_landing_config` and
`analytics_events` rows of the deleted searches.  A delete on `blogs`
cascades to the owned `related_searches` rows (re-checking the email
foreign key) and to `analytics_events` rows referencing the blog.  The
four child tables are leaves: nothing references them, so their deletes
always succeed at the store. -/

/-- A membership test of an optional foreign key against an id list,
modelling the `.in('related_search_id', searchIds)` filter (a NULL column
never matches an IN-list). -/
def optMemB (o : Option String) (l : List String) : Bool :=
  match o with
  | some s => l.contains s
  | none => false

/-- The error message of the NO ACTION foreign-key violation raised when a
`related_searches` delete would orphan an `email_submissions` row. -/
def fkEmailViolationMsg : String :=
  "update or delete on related_searches violates foreign key constraint email_submissions_related_search_id_fkey"

/-- Client-side outcomes of the seven store calls issued by `handleDelete`
in source order: `some m` models a call that fails before reaching the
store (for example a network failure) and leaves the store untouched;
`none` lets the store statement run. -/
structure DeleteErrs where
  esErr : Option String
  aeSearchErr : Option String
  plcErr : Option String
  wrErr : Option String
  aeBlogErr : Option String
  rsErr : Option String
  blogErr : Option String
  deriving DecidableEq, Repr

/-- Every client call reaches the store. -/
def noErrs : DeleteErrs := ⟨none, none, none, none, none, none, none⟩

/-- A client delete on the leaf table `email_submissions`. -/
def deleteEmailsStep (err : Option String) (hit : EmailSubmission → Bool)
    (db : DB) : DB :=
  match err with
  | some _ => db
  | none =>
    { db with
        emailSubmissions := db.emailSubmissions.filter (fun e => !(hit e)) }

/-- A client delete on the leaf table `analytics_events`. -/
def deleteAnalyticsStep (err : Option String) (hit : AnalyticsEvent → Bool)
    (db : DB) : DB :=
  match err with
  | some _ => db
  | none =>
    { db with
        analyticsEvents := db.analyticsEvents.filter (fun e => !(hit e)) }

/-- A client delete on the leaf table `pre_landing_config`. -/
def deletePreLandingStep (err : Option String) (hit : PreLandingConfig → Bool)
    (db : DB) : DB :=
  match err with
  | some _ => db
  | none =>
    { db with
        preLandingConfigs := db.preLandingConfigs.filter (fun c => !(hit c)) }

/-- A client delete on the leaf table `web_results`. -/
def deleteWebResultsStep (err : Option String) (hit : WebResult → Bool)
    (db : DB) : DB :=
  match err with
  | some _ => db
  | none =>
    { db with webResults := db.webResults.filter (fun w => !(hit w)) }

/-- The store statement deleting `related_searches` rows: it fails with
the NO ACTION violation when an `email_submissions` row references a
deleted search, and on success cascades away the `web_results`,
`pre_landing_config` and `analytics_events` rows of the deleted
searches. -/
def deleteRelatedSearchRows (db : DB) (hit : RelatedSearch → Bool) :
    Except String DB :=
  let doomed := db.relatedSearches.filter hit
  if db.emailSubmissions.any
      (fun e => doomed.any (fun s => e.related_search_id == some s.id)) then
    Except.error fkEmailViolationMsg
  else
    Except.ok
      { db with
          relatedSearches := db.relatedSearches.filter (fun s => !(hit s)),
          webResults := db.webResults.filter
            (fun w => !(doomed.any (fun s => w.related_search_id == s.id))),
          preLandingConfigs := db.preLandingConfigs.filter
            (fun c => !(doomed.any (fun s => c.related_search_id == s.id))),
          analyticsEvents := db.analyticsEvents.filter
            (fun e => !(doomed.any (fun s => e.related_search_id == some s.id))) }

/-- The store statement deleting `blogs` rows: it cascades to the owned
`related_searches` rows (whose deletion re-checks the email foreign key)
and onward to their `web_results`, `pre_landing_config` and
`analytics_events` rows, and removes `analytics_events` rows referencing
the deleted blogs. -/
def deleteBlogRows (db : DB) (hit : Blog → Bool) : Except String DB :=
  let doomedBlogs := db.blogs.filter hit
  let doomedSearches := db.relatedSearches.filter
    (fun s => doomedBlogs.any (fun b => s.blog_id == b.id))
  if db.emailSubmissions.any
      (fun e => doomedSearches.any (fun s => e.related_search_id == some s.id)) then
    Except.error fkEmailViolationMsg
  else
    Except.ok
      { blogs := db.blogs.filter (fun b => !(hit b)),
        relatedSearches := db.relatedSearches.filter
          (fun s => !(doomedBlogs.any (fun b => s.blog_id == b.id))),
        webResults := db.webResults.filter
          (fun w => !(doomedSearches.any (fun s => w.related_search_id == s.id))),
        preLandingConfigs := db.preLandingConfigs.filter
          (fun c => !(doomedSearches.any (fun s => c.related_search_id == s.id))),
        analyticsEvents := db.analyticsEvents.filter
          (fun e =>
            !(doomedSearches.any (fun s => e.related_search_id == some s.id) ||
              doomedBlogs.any (fun b => e.blog_id == some b.id))),
        emailSubmissions := db.emailSubmissions }

/-- A client delete on `related_searches`: an injected client failure
leaves the store untouched; otherwise the statement runs and a constraint
violation rolls it back, with the error returned either way. -/
def deleteSearchesStep (err : Option String) (hit : RelatedSearch → Bool)
    (db : DB) : DB × Option String :=
  match err with
  | some m => (db, some m)
  | none =>
    match deleteRelatedSearchRows db hit with
    | Except.ok db2 => (db2, none)
    | Except.error m => (db, some m)

/-- A client delete on `blogs`, analogous to `deleteSearchesStep`. -/
def deleteBlogsStep (err : Option String) (hit : Blog → Bool) (db : DB) :
    DB × Option String :=
  match err with
  | some m => (db, some m)
  | none =>
    match deleteBlogRows db hit with
    | Except.ok db2 => (db2, none)
    | Except.error m => (db, some m)

/-- The delete calls of the blog cascade, in the order the source issues
them. -/
inductive DeleteStep where
  | esBySearch
  | aeBySearch
  | plcBySearch
  | wrBySearch
  | aeByBlog
  | rsByBlog
  | blogById
  deriving DecidableEq, Repr

/-- The toast shown to the operator at the end of `handleDelete`. -/
inductive DeleteOutcome where
  | successToast (msg : String)
  | errorToast (msg : String)
  deriving DecidableEq, Repr

/-- Ids of the `related_searches` rows owned by a blog, as selected by the
initial fetch of `handleDelete`. -/
def searchIdsOf (db : DB) (id : String) : List String :=
  (db.relatedSearches.filter (fun s => s.blog_id == id)).map (fun s => s.id)

/-- The four child-table deletes of `handleDelete`, issued (in source
order) only when the fetched search id list is non-empty. -/
def childDeletes (db : DB) (id : String) (errs : DeleteErrs) : DB :=
  let searchIds := searchIdsOf db id
  if searchIds.isEmpty then db
  else
    deleteWebResultsStep errs.wrErr
      (fun w => searchIds.contains w.related_search_id)
      (deletePreLandingStep errs.plcErr
        (fun c => searchIds.contains c.related_search_id)
        (deleteAnalyticsStep errs.aeSearchErr
          (fun e => optMemB e.related_search_id searchIds)
          (deleteEmailsStep errs.esErr
            (fun e => optMemB e.related_search_id searchIds) db)))

/-- `handleDelete` from `BlogsManager.tsx` over the store semantics: the
child-table deletes, the analytics-by-blog delete, the `related_searches`
delete and the final `blogs` delete; the trace of calls issued; and the
toast, which the code computes from the error of the final `blogs` call
alone. -/
def handleDeleteBlog (db : DB) (id : String) (errs : DeleteErrs) :
    DB × List DeleteStep × DeleteOutcome :=
  let db4 := childDeletes db id errs
  let db5 := deleteAnalyticsStep errs.aeBlogErr
    (fun e => e.blog_id == some id) db4
  let r6 := deleteSearchesStep errs.rsErr (fun s => s.blog_id == id) db5
  let r7 := deleteBlogsStep errs.blogErr (fun b => b.id == id) r6.1
  (r7.1,
   (if (searchIdsOf db id).isEmpty then ([] : List DeleteStep)
    else
      [DeleteStep.esBySearch, DeleteStep.aeBySearch, DeleteStep.plcBySearch,
       DeleteStep.wrBySearch]) ++
     [DeleteStep.aeByBlog, DeleteStep.rsByBlog, DeleteStep.blogById],
   match r7.2 with
   | some m => DeleteOutcome.errorToast ("Error deleting blog: " ++ m)
   | none => DeleteOutcome.successToast "Blog deleted successfully")

/-- `handleDelete` when every client call reaches the store: the database
that results from deleting a blog. -/
def deleteBlog (db : DB) (id : String) : DB :=
  (handleDeleteBlog db id noErrs).1

end Tejastrain

namespace Tejastrain

/-! ## Deletion of a single related search

Two implementations exist in the repository.  The variant in
`src/unnamed/part_001` (`handleDelete` there) deletes the four child
tables before the `related_searches` row; the variant in
`src/components/admin/RelatedSearchesManager.tsx` (`handleDelete`, lines
88 to 102) issues only the single `related_searches` delete, so the store
semantics above decide what happens: a referencing `email_submissions`
row makes the statement fail, and otherwise the declared cascades remove
the dependent `web_results`, `pre_landing_config` and `analytics_events`
rows. -/

/-- `handleDelete` of `src/unnamed/part_001`: child tables first, then the
search row; the second component is the error of the `related_searches`
delete, which that code surfaces in its toast. -/
def handleDeleteSearchCascade (db : DB) (id : String) : DB × Option String :=
  let db1 :=
    { db with
        emailSubmissions :=
          db.emailSubmissions.filter (fun e => !(e.related_search_id == some id)) }
  let db2 :=
    { db1 with
        analyticsEvents :=
          db1.analyticsEvents.filter (fun e => !(e.related_search_id == some id)) }
  let db3 :=
    { db2 with
        preLandingConfigs :=
          db2.preLandingConfigs.filter (fun c => !(c.related_search_id == id)) }
  let db4 :=
    { db3 with
        webResults :=
          db3.webResults.filter (fun w => !(w.related_search_id == id)) }
  match deleteRelatedSearchRows db4 (fun s => s.id == id) with
  | Except.ok db5 => (db5, none)
  | Except.error m => (db4, some m)

/-- `handleDelete` of `RelatedSearchesManager.tsx`: only the single
`related_searches` delete is issued; the store statement fails or
cascades as the schema declares. -/
def handleDeleteSearchSimple (db : DB) (id : String) : DB × Option String :=
  match deleteRelatedSearchRows db (fun s => s.id == id) with
  | Except.ok db2 => (db2, none)
  | Except.error m => (db, some m)

/-! ### Concrete rows used to evaluate the delete routines -/


def blogA : Blog :=
  ⟨"b1", "First Post", "first-post", "Ann Writer", "published", "Body text.", none⟩

def blogB : Blog :=
  ⟨"b2", "Second Post", "second-post", "Bob Writer", "published", "More text.", none⟩

def searchA : RelatedSearch := ⟨"s1", "b1", "best deals today online now", 0, 1⟩

def searchB : RelatedSearch := ⟨"s2", "b2", "cheap flights europe summer deals", 0, 1⟩

def resultA : WebResult :=
  ⟨"w1", "s1", "Result A", "https://u.example", none, none, 0, true⟩

def resultB : WebResult :=
  ⟨"w2", "s2", "Result B", "https://v.example", none, none, 0, false⟩

def emailA : EmailSubmission := ⟨"a@example.com", some "s1", "sess1", "1.2.3.4"⟩

def emailB : EmailSubmission := ⟨"b@example.com", some "s2", "sess2", "5.6.7.8"⟩

def eventA : AnalyticsEvent :=
  ⟨"page_view", some "b1", none, "sess1", "1.2.3.4", "ua", "desktop", "unknown", "direct"⟩

/-- A store holding two blogs, each owning one search with one web result,
plus an email submission per search and one analytics event for blog b1. -/
def exDb : DB :=
  ⟨[blogA, blogB], [searchA, searchB], [resultA, resultB], [],
   [eventA], [emailA, emailB]⟩

/-- The web-results delete fails at the store; every other call succeeds. -/
def errsWrFail : DeleteErrs := { noErrs with wrErr := some "network error" }

/-- The email-submissions delete fails at the client; every other call
succeeds. -/
def errsEsFail : DeleteErrs := { noErrs with esErr := some "network error" }

/-- The example store with no email submission referencing search s1. -/
def exDbNoEmails : DB :=
  ⟨[blogA, blogB], [searchA, searchB], [resultA, resultB], [],
   [eventA], [emailB]⟩

/-- Referential integrity as the migration declares it: every foreign key
column points at an existing parent row. -/
def fkConsistent (db : DB) : Bool :=
  db.relatedSearches.all (fun s => db.blogs.any (fun b => b.id == s.blog_id)) &&
  db.webResults.all
    (fun w => db.relatedSearches.any (fun s => s.id == w.related_search_id)) &&
  db.preLandingConfigs.all
    (fun c => db.relatedSearches.any (fun s => s.id == c.related_search_id)) &&
  db.analyticsEvents.all (fun e =>
    (match e.blog_id with
     | some bid => db.blogs.any (fun b => b.id == bid)
     | none => true) &&
    (match e.related_search_id with
     | some sid => db.relatedSearches.any (fun s => s.id == sid)
     | none => true)) &&
  db.emailSubmissions.all (fun e =>
    match e.related_search_id with
    | some sid => db.relatedSearches.any (fun s => s.id == sid)
    | none => true)

/-- Zero descendant rows of blog B survive in `db2`, with respect to the
searches B owned in `db`: no row of the four child tables references any
of those searches, no analytics event references B, and no search owned
by B remains. -/
def noDescendants (db : DB) (B : String) (db2 : DB) : Prop :=
  (∀ s, s ∈ db.relatedSearches → s.blog_id = B →
     (∀ e, e ∈ db2.emailSubmissions → e.related_search_id ≠ some s.id) ∧
     (∀ e, e ∈ db2.analyticsEvents → e.related_search_id ≠ some s.id) ∧
     (∀ c, c ∈ db2.preLandingConfigs → c.related_search_id ≠ s.id) ∧
     (∀ w, w ∈ db2.webResults → w.related_search_id ≠ s.id)) ∧
  (∀ e, e ∈ db2.analyticsEvents → e.blog_id ≠ some B) ∧
  (∀ s, s ∈ db2.relatedSearches → s.blog_id ≠ B)

end Tejastrain

namespace Tejastrain

/-! ## Wizard selection of related-search phrases (`src/unnamed/part_000`)

`handleSearchSelect` toggles a candidate index in the ordered selection
list `selectedSearches` (initially empty); `handleSaveAll` later inserts
one `related_searches` row per selected phrase, in selection order, with
`order_index = wrIndex` and `wr = wrIndex + 1`. -/

/-- `handleSearchSelect`: deselect when present, append when fewer than 4
are selected, otherwise ignore the click. -/
def handleSearchSelect (selectedSearches : List Nat) (index : Nat) : List Nat :=
  if selectedSearches.contains index then
    selectedSearches.filter (fun i => i ≠ index)
  else if selectedSearches.length < 4 then
    selectedSearches ++ [index]
  else
    selectedSearches

/-- The selection list reached from the empty initial state after a
sequence of clicks on candidate indices. -/
def selectionAfter (clicks : List Nat) : List Nat :=
  clicks.foldl handleSearchSelect []

/-- The fields of a `related_searches` row inserted by `handleSaveAll`
that the selection logic determines. -/
structure WizardSearchRow where
  search_text : String
  order_index : Nat
  wr : Nat
  deriving DecidableEq, Repr

/-- The `related_searches` insert loop of `handleSaveAll`: for each
`wrIndex`, the phrase at candidate index `selectedSearches[wrIndex]` is
persisted with `order_index = wrIndex` and `wr = wrIndex + 1`. -/
def handleSaveAllSearches (selectedSearches : List Nat)
    (generatedSearches : List String) : List WizardSearchRow :=
  (List.range selectedSearches.length).map (fun wrIndex =>
    { search_text := generatedSearches.getD (selectedSearches.getD wrIndex 0) "",
      order_index := wrIndex,
      wr := wrIndex + 1 })

end Tejastrain

namespace Tejastrain

/-! ## Candidate search phrases in full-content mode
(`serve` in `src/unnamed/part_005`, the generate-blog edge function)

The service reply text is split on newlines, each line trimmed, empty
lines dropped, the list truncated to 6, and then padded with placeholder
phrases until it holds exactly 6 entries:

```
relatedSearches = searchesText.split('\n').map(s => s.trim())
  .filter(s => s.length > 0).slice(0, 6);
while (relatedSearches.length < 6) {
  relatedSearches.push(`Related search ${relatedSearches.length + 1} for topic`);
}
```
-/

/-- Character-level embedding of the JavaScript `split(sep)` for a
one-character separator. -/
def splitOnChar (c : Char) : List Char → List (List Char)
  | [] => [[]]
  | x :: xs =>
    if x = c then [] :: splitOnChar c xs
    else
      match splitOnChar c xs with
      | [] => [[x]]
      | y :: ys => (x :: y) :: ys

/-- `searchesText.split('\n')` as a list of strings. -/
def jsSplitLines (s : String) : List String :=
  (splitOnChar (Char.ofNat 10) s.toList).map (fun cs => String.mk cs)

/-- The JavaScript `String.prototype.trim`: strip leading and trailing
whitespace. -/
def jsTrim (s : String) : String :=
  String.mk
    (((s.toList.dropWhile Char.isWhitespace).reverse.dropWhile
        Char.isWhitespace).reverse)

/-- The placeholder phrase pushed for 1-based position `n`. -/
def placeholderSearch (n : Nat) : String :=
  "Related search " ++ toString n ++ " for topic"

/-- The `while (relatedSearches.length < 6) push(...)` padding loop. -/
def padSearches (l : List String) : List String :=
  if h : l.length < 6 then
    padSearches (l ++ [placeholderSearch (l.length + 1)])
  else
    l
termination_by 6 - l.length
decreasing_by
  simp only [List.length_append, List.length_cons, List.length_nil]
  omega

/-- The cleaned candidate list before padding: non-empty trimmed lines,
truncated to at most 6. -/
def cleanSearches (searchesText : String) : List String :=
  (((jsSplitLines searchesText).map jsTrim).filter
      (fun s => s.length > 0)).take 6

/-- The candidate phrase list returned in full-content mode. -/
def processRelatedSearches (searchesText : String) : List String :=
  padSearches (cleanSearches searchesText)

end Tejastrain

namespace Tejastrain

/-! ## Event logging (`src/utils/analytics.ts`)

The tracking helpers run inside a try/catch; external effects (session
storage, the two lookup fetches, the store insert) are modelled by passing
their outcomes in.  A JavaScript exception is `Except.error ()`; a store
call that completes returns the `error` field of its result object. -/

/-- The outcomes of the effectful collaborators of one tracking call. -/
structure TrackEnv where
  sessionId : Except Unit String
  ipFetch : Except Unit String
  countryFetch : String → Except Unit (Option String)
  userAgent : String
  deviceType : String
  insertEvent : AnalyticsEvent → Except Unit (Option String)
  insertEmail : EmailSubmission → Except Unit (Option String)

/-- JavaScript `x || null` on an optional string: an absent or empty
value becomes null. -/
def jsOrNull (o : Option String) : Option String :=
  match o with
  | some s => if s = "" then none else some s
  | none => none

/-- `getIpAddress`: the fetched ip, or the sentinel on any exception. -/
def getIpAddress (r : Except Unit String) : String :=
  match r with
  | .ok ip => ip
  | .error _ => "unknown"

/-- `getCountry`: `data.country_name || 'unknown'`, or the sentinel on
any exception. -/
def getCountry (r : Except Unit (Option String)) : String :=
  match r with
  | .ok d => d.getD "unknown"
  | .error _ => "unknown"

/-- The body of the `try` block of `trackEvent`: build the row and insert
it; any step may raise. -/
def trackEventBody (env : TrackEnv) (eventType : String)
    (blogId relatedSearchId source : Option String) :
    Except Unit (AnalyticsEvent × Option String) :=
  match env.sessionId with
  | .error e => .error e
  | .ok sessionId =>
    let ipAddress := getIpAddress env.ipFetch
    let country := getCountry (env.countryFetch ipAddress)
    let row : AnalyticsEvent :=
      { event_type := eventType
        blog_id := jsOrNull blogId
        related_search_id := jsOrNull relatedSearchId
        session_id := sessionId
        ip_address := ipAddress
        user_agent := env.userAgent
        device_type := env.deviceType
        country := country
        source := source.getD "direct" }
    match env.insertEvent row with
    | .error e => .error e
    | .ok err => .ok (row, err)

/-- `trackEvent`: the try/catch around the body; the result is the row
passed to the store (when the insert completed) and the console error
lines. -/
def trackEvent (env : TrackEnv) (eventType : String)
    (blogId relatedSearchId source : Option String) :
    Except Unit (Option AnalyticsEvent × List String) :=
  match trackEventBody env eventType blogId relatedSearchId source with
  | .ok (row, some e) => .ok (some row, ["Analytics tracking error: " ++ e])
  | .ok (row, none) => .ok (some row, [])
  | .error _ => .ok (none, ["Analytics tracking error"])

/-- The body of the `try` block of `trackEmailSubmission`. -/
def trackEmailSubmissionBody (env : TrackEnv) (email : String)
    (relatedSearchId : Option String) :
    Except Unit (EmailSubmission × Option String) :=
  match env.sessionId with
  | .error e => .error e
  | .ok sessionId =>
    let ipAddress := getIpAddress env.ipFetch
    let row : EmailSubmission :=
      { email := email
        related_search_id := jsOrNull relatedSearchId
        session_id := sessionId
        ip_address := ipAddress }
    match env.insertEmail row with
    | .error e => .error e
    | .ok err => .ok (row, err)

/-- `trackEmailSubmission`: the try/catch around the body. -/
def trackEmailSubmission (env : TrackEnv) (email : String)
    (relatedSearchId : Option String) :
    Except Unit (Option EmailSubmission × List String) :=
  match trackEmailSubmissionBody env email relatedSearchId with
  | .ok (row, some e) => .ok (some row, ["Email tracking error: " ++ e])
  | .ok (row, none) => .ok (some row, [])
  | .error _ => .ok (none, ["Email tracking error"])

end Tejastrain

namespace Tejastrain

/-- A tracking environment where both lookups fail and the store insert
succeeds. -/
def exTrackEnv : TrackEnv :=
  { sessionId := Except.ok "session_1"
    ipFetch := Except.error ()
    countryFetch := fun _ => Except.error ()
    userAgent := "ua"
    deviceType := "desktop"
    insertEvent := fun _ => Except.ok none
    insertEmail := fun _ => Except.ok none }

/-- The row `trackEvent` writes in that environment. -/
def exTrackRow : AnalyticsEvent :=
  ⟨"page_view", none, none, "session_1", "unknown", "ua", "desktop",
   "unknown", "direct"⟩

end Tejastrain

namespace Tejastrain

/-! ## Visit navigation and the pre-landing redirect

`src/pages/WebResults.tsx` renders every web result, sponsored or not and
whether or not a `pre_landing_config` row exists, as

```
<Link to={`/pre-landing/${searchId}`} onClick=...>
```

with no `state` attached, so the navigation carries no destination
override.  The pre-landing page (`src/pages/PreLanding.tsx`, the variant
reading route state) computes

```
const destinationUrl = (location.state as ...)?.destinationUrl;
...
const redirectUrl = destinationUrl || config?.destination_url;
if (redirectUrl) { window.location.href = redirectUrl; }
```

after a non-empty email was submitted, and renders a loading placeholder
(no form, no redirect) whenever no config row was found. -/

/-- Where a click on a web result takes the reader. -/
inductive Navigation where
  | preLanding (searchId : String) (carriedDestination : Option String)
  | direct (url : String)
  deriving DecidableEq, Repr

/-- JavaScript truthiness of an optional string: null, undefined and the
empty string are falsy. -/
def truthy (o : Option String) : Bool :=
  match o with
  | some s => !(s == "")
  | none => false

/-- JavaScript `a || b` on optional strings. -/
def jsOr (a b : Option String) : Option String :=
  if truthy a then a else b

/-- The `Link` around each rendered result in `WebResults.tsx`: always the
pre-landing route for the owning search, with no carried state. -/
def visitClick (searchId : String) (result : WebResult) : Navigation :=
  Navigation.preLanding searchId none

/-- What the pre-landing page renders. -/
inductive PreLandingView where
  | loading
  | form (config : PreLandingConfig)
  deriving DecidableEq, Repr

/-- `if (!config) return <Loading/>` in `PreLanding.tsx`. -/
def renderPreLanding (config : Option PreLandingConfig) : PreLandingView :=
  match config with
  | none => PreLandingView.loading
  | some c => PreLandingView.form c

/-- `handleSubmit` of `PreLanding.tsx`: the redirect target after the
email form is submitted (`none` when no redirect is performed). -/
def handleSubmit (email : Option String) (searchId : Option String)
    (destinationUrl : Option String) (config : Option PreLandingConfig) :
    Option String :=
  if !(truthy email) || !(truthy searchId) then none
  else
    let redirectUrl := jsOr destinationUrl (config.bind (fun c => c.destination_url))
    if truthy redirectUrl then redirectUrl else none

/-- The carried destination the pre-landing page sees after a click: the
route state attached by `visitClick`. -/
def carriedAfterClick (searchId : String) (result : WebResult) : Option String :=
  match visitClick searchId result with
  | Navigation.preLanding _ carried => carried
  | Navigation.direct _ => none

/-- The pre-landing config row of `exDb` for search s1, storing destination
D. -/
def configA : PreLandingConfig :=
  ⟨"p1", "s1", none, "center", none, some "Deals" , none, "#ffffff", none,
   "Continue", some "https://d.example"⟩

end Tejastrain

namespace Tejastrain

/-! ## CSV export of blogs (`exportToCSV` in `BlogsManager.tsx`)

```
const headers = ['ID', 'Title', 'Slug', 'Author', 'Status', 'Content'];
const csvContent = [
  headers.join(','),
  ...data.map(blog => [
    blog.id,
    `"${blog.title.replace(/"/g, '""')}"`,
    blog.slug,
    blog.author,
    blog.status,
    `"${blog.content.replace(/"/g, '""').substring(0, 100)}..."`
  ].join(','))
].join('\n');
```

Only the title and content cells are quoted and escaped; id, slug, author
and status are emitted raw.  `substring(0, 100)` is applied to the
already-escaped content text (`String.take` counts characters where the
source counts UTF-16 units; the two agree on the examples used here). -/

/-- The global `replace(/"/g, '""')`. -/
def escapeQuotes (s : String) : String :=
  String.mk
    (s.toList.foldr
      (fun c acc => if c = '"' then '"' :: '"' :: acc else c :: acc) [])

/-- The template literal wrapping a cell in double quotes. -/
def quoteWrap (s : String) : String := "\"" ++ s ++ "\""

/-- The cell array built for one blog row before `.join(',')`. -/
def blogCsvCells (b : Blog) : List String :=
  [b.id,
   quoteWrap (escapeQuotes b.title),
   b.slug,
   b.author,
   b.status,
   quoteWrap ((escapeQuotes b.content).take 100 ++ "...")]

/-- `headers.join(',')`. -/
def csvHeader : String := "ID,Title,Slug,Author,Status,Content"

/-- The produced CSV text. -/
def exportToCSV (data : List Blog) : String :=
  String.intercalate "\n"
    (csvHeader :: data.map (fun b => String.intercalate "," (blogCsvCells b)))

/-- A blog whose free-text author field contains double quotes. -/
def blogQ : Blog :=
  ⟨"b9", "Hello", "hello", "Jane \"JJ\" Doe", "published", "Body", none⟩

end Tejastrain

open Tejastrain

namespace Tejastrain

/-- One click keeps the selection at size at most 4. -/
theorem handleSearchSelect_length_le (sel : List Nat) (i : Nat)
    (h : sel.length ≤ 4) : (handleSearchSelect sel i).length ≤ 4 := by
  unfold handleSearchSelect
  split_ifs with h1 h2
  · exact le_trans (List.length_filter_le _ _) h
  · simp only [List.length_append, List.length_cons, List.length_nil]
    omega
  · exact h

/-- Every reachable selection has size at most 4. -/
theorem selectionAfter_length_le (clicks : List Nat) :
    (selectionAfter clicks).length ≤ 4 := by
  have main : ∀ (cs : List Nat) (init : List Nat), init.length ≤ 4 →
      (cs.foldl handleSearchSelect init).length ≤ 4 := by
    intro cs
    induction cs with
    | nil => intro init h; simpa using h
    | cons c cs ih =>
      intro init h
      exact ih _ (handleSearchSelect_length_le _ _ h)
  exact main clicks [] (by simp)

/-- Closed form of the padding loop: the input followed by the
placeholders for the remaining 1-based positions. -/
theorem padSearches_eq (l : List String) :
    padSearches l =
      l ++ (List.range' (l.length + 1) (6 - l.length)).map placeholderSearch := by
  by_cases h : l.length < 6
  · have hstep : padSearches l = padSearches (l ++ [placeholderSearch (l.length + 1)]) := by
      rw [padSearches]
      exact dif_pos h
    rw [hstep, padSearches_eq (l ++ [placeholderSearch (l.length + 1)])]
    have hlen : (l ++ [placeholderSearch (l.length + 1)]).length = l.length + 1 := by
      simp
    rw [hlen]
    have hr : 6 - l.length = (6 - (l.length + 1)) + 1 := by omega
    rw [hr, List.range'_succ]
    simp
  · have hstop : padSearches l = l := by
      rw [padSearches]
      exact dif_neg h
    have hz : 6 - l.length = 0 := by omega
    rw [hstop, hz]
    simp
termination_by 6 - l.length
decreasing_by
  simp only [List.length_append, List.length_cons, List.length_nil]
  omega

/-! ### Projection and membership facts about the delete steps -/

/-- A search owned by the blog appears in the fetched id list. -/
theorem mem_searchIdsOf (db : DB) (B : String) (s : RelatedSearch)
    (hs : s ∈ db.relatedSearches) (hB : s.blog_id = B) :
    s.id ∈ searchIdsOf db B :=
  List.mem_map_of_mem _ (List.mem_filter.mpr ⟨hs, by simp [hB]⟩)

theorem deleteEmailsStep_blogs (err : Option String)
    (hit : EmailSubmission → Bool) (db : DB) :
    (deleteEmailsStep err hit db).blogs = db.blogs := by
  cases err <;> rfl

theorem deleteEmailsStep_relatedSearches (err : Option String)
    (hit : EmailSubmission → Bool) (db : DB) :
    (deleteEmailsStep err hit db).relatedSearches = db.relatedSearches := by
  cases err <;> rfl

theorem deleteEmailsStep_analyticsEvents (err : Option String)
    (hit : EmailSubmission → Bool) (db : DB) :
    (deleteEmailsStep err hit db).analyticsEvents = db.analyticsEvents := by
  cases err <;> rfl

theorem deleteAnalyticsStep_blogs (err : Option String)
    (hit : AnalyticsEvent → Bool) (db : DB) :
    (deleteAnalyticsStep err hit db).blogs = db.blogs := by
  cases err <;> rfl

theorem deleteAnalyticsStep_relatedSearches (err : Option String)
    (hit : AnalyticsEvent → Bool) (db : DB) :
    (deleteAnalyticsStep err hit db).relatedSearches = db.relatedSearches := by
  cases err <;> rfl

theorem deleteAnalyticsStep_emailSubmissions (err : Option String)
    (hit : AnalyticsEvent → Bool) (db : DB) :
    (deleteAnalyticsStep err hit db).emailSubmissions = db.emailSubmissions := by
  cases err <;> rfl

theorem mem_of_deleteAnalyticsStep (err : Option String)
    (hit : AnalyticsEvent → Bool) (db : DB) (e : AnalyticsEvent) :
    e ∈ (deleteAnalyticsStep err hit db).analyticsEvents →
    e ∈ db.analyticsEvents := by
  cases err with
  | some m => exact fun h => h
  | none => intro h; exact (List.mem_filter.mp h).1

theorem deletePreLandingStep_blogs (err : Option String)
    (hit : PreLandingConfig → Bool) (db : DB) :
    (deletePreLandingStep err hit db).blogs = db.blogs := by
  cases err <;> rfl

theorem deletePreLandingStep_relatedSearches (err : Option String)
    (hit : PreLandingConfig → Bool) (db : DB) :
    (deletePreLandingStep err hit db).relatedSearches = db.relatedSearches := by
  cases err <;> rfl

theorem deletePreLandingStep_analyticsEvents (err : Option String)
    (hit : PreLandingConfig → Bool) (db : DB) :
    (deletePreLandingStep err hit db).analyticsEvents = db.analyticsEvents := by
  cases err <;> rfl

theorem deleteWebResultsStep_blogs (err : Option String)
    (hit : WebResult → Bool) (db : DB) :
    (deleteWebResultsStep err hit db).blogs = db.blogs := by
  cases err <;> rfl

theorem deleteWebResultsStep_relatedSearches (err : Option String)
    (hit : WebResult → Bool) (db : DB) :
    (deleteWebResultsStep err hit db).relatedSearches = db.relatedSearches := by
  cases err <;> rfl

theorem deleteWebResultsStep_analyticsEvents (err : Option String)
    (hit : WebResult → Bool) (db : DB) :
    (deleteWebResultsStep err hit db).analyticsEvents = db.analyticsEvents := by
  cases err <;> rfl

theorem childDeletes_eq (db : DB) (id : String) (errs : DeleteErrs) :
    childDeletes db id errs =
      if (searchIdsOf db id).isEmpty then db
      else
        deleteWebResultsStep errs.wrErr
          (fun w => (searchIdsOf db id).contains w.related_search_id)
          (deletePreLandingStep errs.plcErr
            (fun c => (searchIdsOf db id).contains c.related_search_id)
            (deleteAnalyticsStep errs.aeSearchErr
              (fun e => optMemB e.related_search_id (searchIdsOf db id))
              (deleteEmailsStep errs.esErr
                (fun e => optMemB e.related_search_id (searchIdsOf db id))
                db))) := rfl

theorem childDeletes_blogs (db : DB) (id : String) (errs : DeleteErrs) :
    (childDeletes db id errs).blogs = db.blogs := by
  rw [childDeletes_eq]
  split
  · rfl
  · rw [deleteWebResultsStep_blogs, deletePreLandingStep_blogs,
      deleteAnalyticsStep_blogs, deleteEmailsStep_blogs]

theorem childDeletes_relatedSearches (db : DB) (id : String)
    (errs : DeleteErrs) :
    (childDeletes db id errs).relatedSearches = db.relatedSearches := by
  rw [childDeletes_eq]
  split
  · rfl
  · rw [deleteWebResultsStep_relatedSearches,
      deletePreLandingStep_relatedSearches,
      deleteAnalyticsStep_relatedSearches, deleteEmailsStep_relatedSearches]

theorem childDeletes_mem_analyticsEvents (db : DB) (id : String)
    (errs : DeleteErrs) (e : AnalyticsEvent) :
    e ∈ (childDeletes db id errs).analyticsEvents →
    e ∈ db.analyticsEvents := by
  rw [childDeletes_eq]
  split
  · exact fun h => h
  · intro h
    rw [deleteWebResultsStep_analyticsEvents,
      deletePreLandingStep_analyticsEvents] at h
    have h2 := mem_of_deleteAnalyticsStep _ _ _ _ h
    rw [deleteEmailsStep_analyticsEvents] at h2
    exact h2

/-- `childDeletes` with every call reaching the store, in closed form. -/
theorem childDeletes_noErrs (db : DB) (id : String) :
    childDeletes db id noErrs =
      if (searchIdsOf db id).isEmpty then db
      else
        { db with
            emailSubmissions := db.emailSubmissions.filter
              (fun e => !(optMemB e.related_search_id (searchIdsOf db id))),
            analyticsEvents := db.analyticsEvents.filter
              (fun e => !(optMemB e.related_search_id (searchIdsOf db id))),
            preLandingConfigs := db.preLandingConfigs.filter
              (fun c => !((searchIdsOf db id).contains c.related_search_id)),
            webResults := db.webResults.filter
              (fun w => !((searchIdsOf db id).contains w.related_search_id)) } := by
  rw [childDeletes_eq]
  split <;> rfl

/-- Successful run of the `related_searches` statement, in closed form. -/
theorem deleteRelatedSearchRows_eq_ok (db : DB) (hit : RelatedSearch → Bool)
    (h : (db.emailSubmissions.any (fun e =>
        (db.relatedSearches.filter hit).any
          (fun s => e.related_search_id == some s.id))) = false) :
    deleteRelatedSearchRows db hit = Except.ok
      { db with
          relatedSearches := db.relatedSearches.filter (fun s => !(hit s)),
          webResults := db.webResults.filter
            (fun w => !((db.relatedSearches.filter hit).any
              (fun s => w.related_search_id == s.id))),
          preLandingConfigs := db.preLandingConfigs.filter
            (fun c => !((db.relatedSearches.filter hit).any
              (fun s => c.related_search_id == s.id))),
          analyticsEvents := db.analyticsEvents.filter
            (fun e => !((db.relatedSearches.filter hit).any
              (fun s => e.related_search_id == some s.id))) } := by
  simp only [deleteRelatedSearchRows, h]
  rfl

/-- Failing run of the `related_searches` statement. -/
theorem deleteRelatedSearchRows_eq_error (db : DB) (hit : RelatedSearch → Bool)
    (h : (db.emailSubmissions.any (fun e =>
        (db.relatedSearches.filter hit).any
          (fun s => e.related_search_id == some s.id))) = true) :
    deleteRelatedSearchRows db hit = Except.error fkEmailViolationMsg := by
  simp only [deleteRelatedSearchRows]
  rw [if_pos h]

/-- What a successful `related_searches` statement implies. -/
theorem deleteRelatedSearchRows_ok_spec (db : DB) (hit : RelatedSearch → Bool)
    (db2 : DB) (h : deleteRelatedSearchRows db hit = Except.ok db2) :
    (db.emailSubmissions.any (fun e =>
        (db.relatedSearches.filter hit).any
          (fun s => e.related_search_id == some s.id))) = false ∧
    db2 = { db with
        relatedSearches := db.relatedSearches.filter (fun s => !(hit s)),
        webResults := db.webResults.filter
          (fun w => !((db.relatedSearches.filter hit).any
            (fun s => w.related_search_id == s.id))),
        preLandingConfigs := db.preLandingConfigs.filter
          (fun c => !((db.relatedSearches.filter hit).any
            (fun s => c.related_search_id == s.id))),
        analyticsEvents := db.analyticsEvents.filter
          (fun e => !((db.relatedSearches.filter hit).any
            (fun s => e.related_search_id == some s.id))) } := by
  simp only [deleteRelatedSearchRows] at h
  by_cases hc : (db.emailSubmissions.any (fun e =>
      (db.relatedSearches.filter hit).any
        (fun s => e.related_search_id == some s.id))) = true
  · rw [if_pos hc] at h
    simp at h
  · have hc2 : (db.emailSubmissions.any (fun e =>
        (db.relatedSearches.filter hit).any
          (fun s => e.related_search_id == some s.id))) = false := by
      cases hcc : (db.emailSubmissions.any (fun e =>
          (db.relatedSearches.filter hit).any
            (fun s => e.related_search_id == some s.id)))
      · rfl
      · exact absurd hcc hc
    rw [if_neg hc] at h
    simp only [Except.ok.injEq] at h
    exact ⟨hc2, h.symm⟩

/-- Successful run of the `blogs` statement, in closed form. -/
theorem deleteBlogRows_eq_ok (db : DB) (hit : Blog → Bool)
    (h : (db.emailSubmissions.any (fun e =>
        (db.relatedSearches.filter (fun s =>
          (db.blogs.filter hit).any (fun b => s.blog_id == b.id))).any
          (fun s => e.related_search_id == some s.id))) = false) :
    deleteBlogRows db hit = Except.ok
      { blogs := db.blogs.filter (fun b => !(hit b)),
        relatedSearches := db.relatedSearches.filter
          (fun s => !((db.blogs.filter hit).any (fun b => s.blog_id == b.id))),
        webResults := db.webResults.filter
          (fun w => !((db.relatedSearches.filter (fun s =>
            (db.blogs.filter hit).any (fun b => s.blog_id == b.id))).any
            (fun s => w.related_search_id == s.id))),
        preLandingConfigs := db.preLandingConfigs.filter
          (fun c => !((db.relatedSearches.filter (fun s =>
            (db.blogs.filter hit).any (fun b => s.blog_id == b.id))).any
            (fun s => c.related_search_id == s.id))),
        analyticsEvents := db.analyticsEvents.filter
          (fun e =>
            !((db.relatedSearches.filter (fun s =>
                (db.blogs.filter hit).any (fun b => s.blog_id == b.id))).any
                (fun s => e.related_search_id == some s.id) ||
              (db.blogs.filter hit).any (fun b => e.blog_id == some b.id))),
        emailSubmissions := db.emailSubmissions } := by
  simp only [deleteBlogRows, h]
  rfl

/-- What a successful `blogs` statement implies. -/
theorem deleteBlogRows_ok_spec (db : DB) (hit : Blog → Bool) (db2 : DB)
    (h : deleteBlogRows db hit = Except.ok db2) :
    (db.emailSubmissions.any (fun e =>
        (db.relatedSearches.filter (fun s =>
          (db.blogs.filter hit).any (fun b => s.blog_id == b.id))).any
          (fun s => e.related_search_id == some s.id))) = false ∧
    db2 = { blogs := db.blogs.filter (fun b => !(hit b)),
            relatedSearches := db.relatedSearches.filter
              (fun s => !((db.blogs.filter hit).any
                (fun b => s.blog_id == b.id))),
            webResults := db.webResults.filter
              (fun w => !((db.relatedSearches.filter (fun s =>
                (db.blogs.filter hit).any (fun b => s.blog_id == b.id))).any
                (fun s => w.related_search_id == s.id))),
            preLandingConfigs := db.preLandingConfigs.filter
              (fun c => !((db.relatedSearches.filter (fun s =>
                (db.blogs.filter hit).any (fun b => s.blog_id == b.id))).any
                (fun s => c.related_search_id == s.id))),
            analyticsEvents := db.analyticsEvents.filter
              (fun e =>
                !((db.relatedSearches.filter (fun s =>
                    (db.blogs.filter hit).any
                      (fun b => s.blog_id == b.id))).any
                    (fun s => e.related_search_id == some s.id) ||
                  (db.blogs.filter hit).any
                    (fun b => e.blog_id == some b.id))),
            emailSubmissions := db.emailSubmissions } := by
  simp only [deleteBlogRows] at h
  by_cases hc : (db.emailSubmissions.any (fun e =>
      (db.relatedSearches.filter (fun s =>
        (db.blogs.filter hit).any (fun b => s.blog_id == b.id))).any
        (fun s => e.related_search_id == some s.id))) = true
  · rw [if_pos hc] at h
    simp at h
  · have hc2 : (db.emailSubmissions.any (fun e =>
        (db.relatedSearches.filter (fun s =>
          (db.blogs.filter hit).any (fun b => s.blog_id == b.id))).any
          (fun s => e.related_search_id == some s.id))) = false := by
      cases hcc : (db.emailSubmissions.any (fun e =>
          (db.relatedSearches.filter (fun s =>
            (db.blogs.filter hit).any (fun b => s.blog_id == b.id))).any
            (fun s => e.related_search_id == some s.id)))
      · rfl
      · exact absurd hcc hc
    rw [if_neg hc] at h
    simp only [Except.ok.injEq] at h
    exact ⟨hc2, h.symm⟩

/-- A `related_searches` client call either leaves the store unchanged or
records a successful statement run. -/
theorem deleteSearchesStep_fst (err : Option String)
    (hit : RelatedSearch → Bool) (db : DB) :
    (deleteSearchesStep err hit db).1 = db ∨
    deleteRelatedSearchRows db hit =
      Except.ok (deleteSearchesStep err hit db).1 := by
  cases err with
  | some m => exact Or.inl rfl
  | none =>
    cases hstmt : deleteRelatedSearchRows db hit with
    | ok db2 => right; simp [deleteSearchesStep, hstmt]
    | error m => left; simp [deleteSearchesStep, hstmt]

theorem deleteSearchesStep_blogs (err : Option String)
    (hit : RelatedSearch → Bool) (db : DB) :
    (deleteSearchesStep err hit db).1.blogs = db.blogs := by
  rcases deleteSearchesStep_fst err hit db with h | h
  · rw [h]
  · obtain ⟨-, hdb⟩ := deleteRelatedSearchRows_ok_spec db hit _ h
    rw [hdb]

theorem deleteSearchesStep_emailSubmissions (err : Option String)
    (hit : RelatedSearch → Bool) (db : DB) :
    (deleteSearchesStep err hit db).1.emailSubmissions =
      db.emailSubmissions := by
  rcases deleteSearchesStep_fst err hit db with h | h
  · rw [h]
  · obtain ⟨-, hdb⟩ := deleteRelatedSearchRows_ok_spec db hit _ h
    rw [hdb]

theorem mem_rs_of_deleteSearchesStep (err : Option String)
    (hit : RelatedSearch → Bool) (db : DB) (s : RelatedSearch) :
    s ∈ (deleteSearchesStep err hit db).1.relatedSearches →
    s ∈ db.relatedSearches := by
  rcases deleteSearchesStep_fst err hit db with h | h
  · rw [h]; exact fun hm => hm
  · obtain ⟨-, hdb⟩ := deleteRelatedSearchRows_ok_spec db hit _ h
    rw [hdb]
    intro hm
    exact (List.mem_filter.mp hm).1

theorem mem_ae_of_deleteSearchesStep (err : Option String)
    (hit : RelatedSearch → Bool) (db : DB) (e : AnalyticsEvent) :
    e ∈ (deleteSearchesStep err hit db).1.analyticsEvents →
    e ∈ db.analyticsEvents := by
  rcases deleteSearchesStep_fst err hit db with h | h
  · rw [h]; exact fun hm => hm
  · obtain ⟨-, hdb⟩ := deleteRelatedSearchRows_ok_spec db hit _ h
    rw [hdb]
    intro hm
    exact (List.mem_filter.mp hm).1

/-- A `blogs` client call that reports no error ran the statement
successfully. -/
theorem deleteBlogsStep_snd_none (err : Option String) (hit : Blog → Bool)
    (db : DB) :
    (deleteBlogsStep err hit db).2 = none →
    deleteBlogRows db hit = Except.ok (deleteBlogsStep err hit db).1 := by
  cases err with
  | some m => simp [deleteBlogsStep]
  | none =>
    cases hstmt : deleteBlogRows db hit with
    | ok db2 => simp [deleteBlogsStep, hstmt]
    | error m => simp [deleteBlogsStep, hstmt]

/-- Foreign-key fact extracted from `fkConsistent`: every search has an
existing parent blog. -/
theorem fkConsistent_searches (db : DB) (h : fkConsistent db = true) :
    ∀ s ∈ db.relatedSearches, ∃ b ∈ db.blogs, b.id = s.blog_id := by
  intro s hs
  unfold fkConsistent at h
  simp only [Bool.and_eq_true, List.all_eq_true] at h
  obtain ⟨⟨⟨⟨h1, -⟩, -⟩, -⟩, -⟩ := h
  obtain ⟨b, hb, hbeq⟩ := List.any_eq_true.mp (h1 s hs)
  exact ⟨b, hb, beq_iff_eq.mp hbeq⟩

/-- Foreign-key fact extracted from `fkConsistent`: every analytics event
with a blog reference has an existing parent blog. -/
theorem fkConsistent_events_blog (db : DB) (h : fkConsistent db = true) :
    ∀ e ∈ db.analyticsEvents, ∀ bid, e.blog_id = some bid →
    ∃ b ∈ db.blogs, b.id = bid := by
  intro e he bid hbid
  unfold fkConsistent at h
  simp only [Bool.and_eq_true, List.all_eq_true] at h
  obtain ⟨⟨⟨⟨-, -⟩, -⟩, h4⟩, -⟩ := h
  have h5 := h4 e he
  have h6 := h5.1
  rw [hbid] at h6
  have h7 : (db.blogs.any (fun b => b.id == bid)) = true := h6
  obtain ⟨b, hb, hbeq⟩ := List.any_eq_true.mp h7
  exact ⟨b, hb, beq_iff_eq.mp hbeq⟩

end Tejastrain

/-- C1: for every blog id B, `handleDelete` (with every store call
succeeding) issues the child-table deletes before the `related_searches`
delete and the final `blogs` delete, and leaves zero `EmailSubmission`,
`AnalyticsEvent`, `PreLandingConfig` or `WebResult` rows referencing any
`RelatedSearch` owned by B, zero `AnalyticsEvent` rows referencing B
directly, zero `RelatedSearch` rows owned by B, and no `Blog` row B. -/
theorem c1_delete_blog_cascade (db : DB) (B : String) :
    (∀ s, s ∈ db.relatedSearches → s.blog_id = B →
       (∀ e, e ∈ (deleteBlog db B).emailSubmissions →
          e.related_search_id ≠ some s.id) ∧
       (∀ e, e ∈ (deleteBlog db B).analyticsEvents →
          e.related_search_id ≠ some s.id) ∧
       (∀ c, c ∈ (deleteBlog db B).preLandingConfigs →
          c.related_search_id ≠ s.id) ∧
       (∀ w, w ∈ (deleteBlog db B).webResults →
          w.related_search_id ≠ s.id)) ∧
    (∀ e, e ∈ (deleteBlog db B).analyticsEvents → e.blog_id ≠ some B) ∧
    (∀ s, s ∈ (deleteBlog db B).relatedSearches → s.blog_id ≠ B) ∧
    (∀ b, b ∈ (deleteBlog db B).blogs → b.id ≠ B) ∧
    (handleDeleteBlog db B noErrs).2.1 =
      (if (searchIdsOf db B).isEmpty then
        [DeleteStep.aeByBlog, DeleteStep.rsByBlog, DeleteStep.blogById]
      else
        [DeleteStep.esBySearch, DeleteStep.aeBySearch, DeleteStep.plcBySearch,
         DeleteStep.wrBySearch, DeleteStep.aeByBlog, DeleteStep.rsByBlog,
         DeleteStep.blogById]) := by
  have hsid : ∀ s, s ∈ db.relatedSearches → s.blog_id = B →
      s.id ∈ searchIdsOf db B := fun s hs hB => mem_searchIdsOf db B s hs hB
  have h4 := childDeletes_noErrs db B
  set d4 := childDeletes db B noErrs with hd4
  have hd4rs : d4.relatedSearches = db.relatedSearches := by
    rw [h4]; split <;> rfl
  have hd4em : d4.emailSubmissions =
      (if (searchIdsOf db B).isEmpty then db.emailSubmissions
       else db.emailSubmissions.filter
         (fun e => !(optMemB e.related_search_id (searchIdsOf db B)))) := by
    rw [h4]; split <;> rfl
  have hd4ae : d4.analyticsEvents =
      (if (searchIdsOf db B).isEmpty then db.analyticsEvents
       else db.analyticsEvents.filter
         (fun e => !(optMemB e.related_search_id (searchIdsOf db B)))) := by
    rw [h4]; split <;> rfl
  have hd4plc : d4.preLandingConfigs =
      (if (searchIdsOf db B).isEmpty then db.preLandingConfigs
       else db.preLandingConfigs.filter
         (fun c => !((searchIdsOf db B).contains c.related_search_id))) := by
    rw [h4]; split <;> rfl
  have hd4wr : d4.webResults =
      (if (searchIdsOf db B).isEmpty then db.webResults
       else db.webResults.filter
         (fun w => !((searchIdsOf db B).contains w.related_search_id))) := by
    rw [h4]; split <;> rfl
  set d5 := deleteAnalyticsStep none (fun e => e.blog_id == some B) d4 with hd5
  have hd5rs : d5.relatedSearches = db.relatedSearches := by
    rw [hd5, deleteAnalyticsStep_relatedSearches, hd4rs]
  have hd5em : d5.emailSubmissions = d4.emailSubmissions := by
    rw [hd5, deleteAnalyticsStep_emailSubmissions]
  have hd5ae : d5.analyticsEvents =
      d4.analyticsEvents.filter (fun e => !(e.blog_id == some B)) := by
    rw [hd5]; rfl
  have hd5wr : d5.webResults = d4.webResults := by rw [hd5]; rfl
  have hd5plc : d5.preLandingConfigs = d4.preLandingConfigs := by
    rw [hd5]; rfl
  have hcheck : (d5.emailSubmissions.any (fun e =>
      (d5.relatedSearches.filter (fun s => s.blog_id == B)).any
        (fun s => e.related_search_id == some s.id))) = false := by
    rw [List.any_eq_false]
    intro e he
    intro hany
    obtain ⟨s, hsf, hbeq⟩ := List.any_eq_true.mp hany
    have hsf2 := List.mem_filter.mp hsf
    have hsmem : s ∈ db.relatedSearches := by rw [← hd5rs]; exact hsf2.1
    have hsB : s.blog_id = B := by
      have := hsf2.2
      simpa using this
    have hneB : (searchIdsOf db B).isEmpty = false := by
      cases hie : (searchIdsOf db B).isEmpty
      · rfl
      · exact absurd (hsid s hsmem hsB)
          (by rw [List.isEmpty_iff.mp hie]; exact List.not_mem_nil _)
    rw [hd5em, hd4em, hneB] at he
    simp only [Bool.false_eq_true, if_false] at he
    have he2 := List.mem_filter.mp he
    have heq2 : e.related_search_id = some s.id := by simpa using hbeq
    have hopt : optMemB e.related_search_id (searchIdsOf db B) = true := by
      rw [heq2]
      simp only [optMemB]
      exact List.elem_iff.mpr (hsid s hsmem hsB)
    have h3 := he2.2
    rw [hopt] at h3
    simp at h3
  have hrs := deleteRelatedSearchRows_eq_ok d5 (fun s => s.blog_id == B) hcheck
  set d6 := (deleteSearchesStep none (fun s => s.blog_id == B) d5).1 with hd6
  have hd6eq : d6 = { d5 with
      relatedSearches := d5.relatedSearches.filter (fun s => !(s.blog_id == B)),
      webResults := d5.webResults.filter
        (fun w => !((d5.relatedSearches.filter (fun s => s.blog_id == B)).any
          (fun s => w.related_search_id == s.id))),
      preLandingConfigs := d5.preLandingConfigs.filter
        (fun c => !((d5.relatedSearches.filter (fun s => s.blog_id == B)).any
          (fun s => c.related_search_id == s.id))),
      analyticsEvents := d5.analyticsEvents.filter
        (fun e => !((d5.relatedSearches.filter (fun s => s.blog_id == B)).any
          (fun s => e.related_search_id == some s.id))) } := by
    rw [hd6]
    simp [deleteSearchesStep, hrs]
  have hd6rs : d6.relatedSearches =
      d5.relatedSearches.filter (fun s => !(s.blog_id == B)) := by rw [hd6eq]
  have hd6em : d6.emailSubmissions = d5.emailSubmissions := by rw [hd6eq]
  have hd6bl : d6.blogs = d5.blogs := by rw [hd6eq]
  have hd6ae : d6.analyticsEvents = d5.analyticsEvents.filter
      (fun e => !((d5.relatedSearches.filter (fun s => s.blog_id == B)).any
        (fun s => e.related_search_id == some s.id))) := by rw [hd6eq]
  have hd6wr : d6.webResults = d5.webResults.filter
      (fun w => !((d5.relatedSearches.filter (fun s => s.blog_id == B)).any
        (fun s => w.related_search_id == s.id))) := by rw [hd6eq]
  have hd6plc : d6.preLandingConfigs = d5.preLandingConfigs.filter
      (fun c => !((d5.relatedSearches.filter (fun s => s.blog_id == B)).any
        (fun s => c.related_search_id == s.id))) := by rw [hd6eq]
  have hdoomed6 : d6.relatedSearches.filter (fun s =>
      (d6.blogs.filter (fun b => b.id == B)).any
        (fun b => s.blog_id == b.id)) = [] := by
    rw [List.filter_eq_nil_iff]
    intro s hs
    rw [hd6rs] at hs
    have hs2 := List.mem_filter.mp hs
    intro hany
    obtain ⟨b, hb, hbeq⟩ := List.any_eq_true.mp hany
    have hbid : b.id = B := by
      have := (List.mem_filter.mp hb).2
      simpa using this
    have hsb : s.blog_id = B := by
      have := beq_iff_eq.mp hbeq
      rw [this, hbid]
    have h3 := hs2.2
    simp [hsb] at h3
  have hcheck2 : (d6.emailSubmissions.any (fun e =>
      (d6.relatedSearches.filter (fun s =>
        (d6.blogs.filter (fun b => b.id == B)).any
          (fun b => s.blog_id == b.id))).any
        (fun s => e.related_search_id == some s.id))) = false := by
    rw [hdoomed6]
    simp
  have hblogs := deleteBlogRows_eq_ok d6 (fun b => b.id == B) hcheck2
  have hrun : deleteBlog db B =
      (deleteBlogsStep none (fun b => b.id == B) d6).1 := by
    rw [hd6, hd5, hd4]
    rfl
  have hstep7 : deleteBlogsStep none (fun b => b.id == B) d6 =
      ({ blogs := d6.blogs.filter (fun b => !(b.id == B)),
         relatedSearches := d6.relatedSearches.filter
           (fun s => !((d6.blogs.filter (fun b => b.id == B)).any
             (fun b => s.blog_id == b.id))),
         webResults := d6.webResults.filter
           (fun w => !((d6.relatedSearches.filter (fun s =>
             (d6.blogs.filter (fun b => b.id == B)).any
               (fun b => s.blog_id == b.id))).any
             (fun s => w.related_search_id == s.id))),
         preLandingConfigs := d6.preLandingConfigs.filter
           (fun c => !((d6.relatedSearches.filter (fun s =>
             (d6.blogs.filter (fun b => b.id == B)).any
               (fun b => s.blog_id == b.id))).any
             (fun s => c.related_search_id == s.id))),
         analyticsEvents := d6.analyticsEvents.filter
           (fun e =>
             !((d6.relatedSearches.filter (fun s =>
                 (d6.blogs.filter (fun b => b.id == B)).any
                   (fun b => s.blog_id == b.id))).any
                 (fun s => e.related_search_id == some s.id) ||
               (d6.blogs.filter (fun b => b.id == B)).any
                 (fun b => e.blog_id == some b.id))),
         emailSubmissions := d6.emailSubmissions }, none) := by
    simp [deleteBlogsStep, hblogs]
  have hfem : (deleteBlog db B).emailSubmissions = d6.emailSubmissions := by
    rw [hrun, hstep7]
  have hfrs : (deleteBlog db B).relatedSearches =
      d6.relatedSearches.filter
        (fun s => !((d6.blogs.filter (fun b => b.id == B)).any
          (fun b => s.blog_id == b.id))) := by
    rw [hrun, hstep7]
  have hfbl : (deleteBlog db B).blogs =
      d6.blogs.filter (fun b => !(b.id == B)) := by
    rw [hrun, hstep7]
  have hfae : (deleteBlog db B).analyticsEvents =
      d6.analyticsEvents.filter
        (fun e =>
          !((d6.relatedSearches.filter (fun s =>
              (d6.blogs.filter (fun b => b.id == B)).any
                (fun b => s.blog_id == b.id))).any
              (fun s => e.related_search_id == some s.id) ||
            (d6.blogs.filter (fun b => b.id == B)).any
              (fun b => e.blog_id == some b.id))) := by
    rw [hrun, hstep7]
  have hfwr : (deleteBlog db B).webResults =
      d6.webResults.filter
        (fun w => !((d6.relatedSearches.filter (fun s =>
          (d6.blogs.filter (fun b => b.id == B)).any
            (fun b => s.blog_id == b.id))).any
          (fun s => w.related_search_id == s.id))) := by
    rw [hrun, hstep7]
  have hfplc : (deleteBlog db B).preLandingConfigs =
      d6.preLandingConfigs.filter
        (fun c => !((d6.relatedSearches.filter (fun s =>
          (d6.blogs.filter (fun b => b.id == B)).any
            (fun b => s.blog_id == b.id))).any
          (fun s => c.related_search_id == s.id))) := by
    rw [hrun, hstep7]
  refine ⟨?_, ?_, ?_, ?_, ?_⟩
  · intro s hs hB
    have hsidmem := hsid s hs hB
    have hneB : (searchIdsOf db B).isEmpty = false := by
      cases hie : (searchIdsOf db B).isEmpty
      · rfl
      · exact absurd hsidmem
          (by rw [List.isEmpty_iff.mp hie]; exact List.not_mem_nil _)
    refine ⟨?_, ?_, ?_, ?_⟩
    · intro e he
      rw [hfem, hd6em, hd5em, hd4em, hneB] at he
      simp only [Bool.false_eq_true, if_false] at he
      have he2 := List.mem_filter.mp he
      intro hcon
      have hopt : optMemB e.related_search_id (searchIdsOf db B) = true := by
        rw [hcon]
        simp only [optMemB]
        exact List.elem_iff.mpr hsidmem
      have h3 := he2.2
      rw [hopt] at h3
      simp at h3
    · intro e he
      rw [hfae] at he
      have he6 : e ∈ d6.analyticsEvents := (List.mem_filter.mp he).1
      rw [hd6ae] at he6
      have he5 : e ∈ d5.analyticsEvents := (List.mem_filter.mp he6).1
      rw [hd5ae] at he5
      have he4 : e ∈ d4.analyticsEvents := (List.mem_filter.mp he5).1
      rw [hd4ae, hneB] at he4
      simp only [Bool.false_eq_true, if_false] at he4
      have he2 := List.mem_filter.mp he4
      intro hcon
      have hopt : optMemB e.related_search_id (searchIdsOf db B) = true := by
        rw [hcon]
        simp only [optMemB]
        exact List.elem_iff.mpr hsidmem
      have h3 := he2.2
      rw [hopt] at h3
      simp at h3
    · intro c hc
      rw [hfplc] at hc
      have hc6 : c ∈ d6.preLandingConfigs := (List.mem_filter.mp hc).1
      rw [hd6plc] at hc6
      have hc5 : c ∈ d5.preLandingConfigs := (List.mem_filter.mp hc6).1
      rw [hd5plc, hd4plc, hneB] at hc5
      simp only [Bool.false_eq_true, if_false] at hc5
      have hc2 := List.mem_filter.mp hc5
      intro hcon
      have hcont : (searchIdsOf db B).contains c.related_search_id = true := by
        rw [hcon]
        exact List.elem_iff.mpr hsidmem
      have h3 := hc2.2
      rw [hcont] at h3
      simp at h3
    · intro w hw
      rw [hfwr] at hw
      have hw6 : w ∈ d6.webResults := (List.mem_filter.mp hw).1
      rw [hd6wr] at hw6
      have hw5 : w ∈ d5.webResults := (List.mem_filter.mp hw6).1
      rw [hd5wr, hd4wr, hneB] at hw5
      simp only [Bool.false_eq_true, if_false] at hw5
      have hw2 := List.mem_filter.mp hw5
      intro hcon
      have hcont : (searchIdsOf db B).contains w.related_search_id = true := by
        rw [hcon]
        exact List.elem_iff.mpr hsidmem
      have h3 := hw2.2
      rw [hcont] at h3
      simp at h3
  · intro e he
    rw [hfae] at he
    have he6 : e ∈ d6.analyticsEvents := (List.mem_filter.mp he).1
    rw [hd6ae] at he6
    have he5m := List.mem_filter.mp he6
    have he5 : e ∈ d5.analyticsEvents := he5m.1
    rw [hd5ae] at he5
    have h2 := (List.mem_filter.mp he5).2
    intro hcon
    rw [hcon] at h2
    simp at h2
  · intro s hsm
    rw [hfrs] at hsm
    have hs6 : s ∈ d6.relatedSearches := (List.mem_filter.mp hsm).1
    rw [hd6rs] at hs6
    have h2 := (List.mem_filter.mp hs6).2
    intro hcon
    rw [hcon] at h2
    simp at h2
  · intro b hbm
    rw [hfbl] at hbm
    have h2 := (List.mem_filter.mp hbm).2
    intro hcon
    rw [hcon] at h2
    simp at h2
  · by_cases hg : (searchIdsOf db B).isEmpty <;>
      simp [handleDeleteBlog, hg]

/-- Witness for C1 at a concrete store: `searchA` is owned by blog b1, and
after `Delete-Blog(b1)` the surviving web result and email submission rows
do not reference it. -/
theorem c1_delete_blog_cascade_witness :
    resultB.related_search_id ≠ searchA.id ∧
    emailB.related_search_id ≠ some searchA.id := by
  have h := c1_delete_blog_cascade exDb "b1"
  have h1 := h.1 searchA (by decide) rfl
  exact ⟨h1.2.2.2 resultB (by decide), h1.1 emailB (by decide)⟩

/-- Counterexample to C10 as stated at its own paradigm input: with the
`web_results` delete failing and every other call succeeding, the routine
reports success, yet no descendant row survives, because the successful
`related_searches` delete cascades the web result away; the claimed
success-with-surviving-descendants run does not occur. -/
theorem c10_counterexample_no_silent_survivors :
    (handleDeleteBlog exDb "b1" errsWrFail).2.2 =
      DeleteOutcome.successToast "Blog deleted successfully" ∧
    (handleDeleteBlog exDb "b1" errsWrFail).1.webResults = [resultB] ∧
    resultB.related_search_id = "s2" ∧
    (handleDeleteBlog exDb "b1" errsWrFail).1.relatedSearches = [searchB] ∧
    (handleDeleteBlog exDb "b1" errsWrFail).1.analyticsEvents = [] ∧
    (handleDeleteBlog exDb "b1" errsWrFail).1.emailSubmissions = [emailB] ∧
    (handleDeleteBlog exDb "b1" errsWrFail).1.preLandingConfigs = [] := by
  decide

/-- C10 (amended): the toast is computed from the final `blogs` call
alone and the six child-table delete results are never inspected or
surfaced (a run whose `web_results` delete fails still reports success);
but on a referentially consistent store a reported success implies zero
descendant rows survive, because the schema cascades `related_searches`,
`web_results`, `pre_landing_config` and `analytics_events` and the plain
`email_submissions` foreign key makes the final delete fail instead; a
partially failed cascade surfaces only as the final delete failing. -/
theorem c10_outcome_amended :
    (∀ (db : DB) (B : String) (errs : DeleteErrs),
        fkConsistent db = true →
        (handleDeleteBlog db B errs).2.2 =
          DeleteOutcome.successToast "Blog deleted successfully" →
        noDescendants db B (handleDeleteBlog db B errs).1) ∧
    ((handleDeleteBlog exDb "b1" errsWrFail).2.2 =
        DeleteOutcome.successToast "Blog deleted successfully") ∧
    ((handleDeleteBlog exDb "b1" errsEsFail).2.2 =
        DeleteOutcome.errorToast ("Error deleting blog: " ++ fkEmailViolationMsg)) := by
  refine ⟨?_, by decide, by decide⟩
  intro db B errs hfk hsucc
  set d4 := childDeletes db B errs with hd4
  set d5 := deleteAnalyticsStep errs.aeBlogErr
    (fun e => e.blog_id == some B) d4 with hd5
  set d6 := (deleteSearchesStep errs.rsErr (fun s => s.blog_id == B) d5).1
    with hd6
  have hout : (handleDeleteBlog db B errs).2.2 =
      (match (deleteBlogsStep errs.blogErr (fun b => b.id == B) d6).2 with
       | some m => DeleteOutcome.errorToast ("Error deleting blog: " ++ m)
       | none => DeleteOutcome.successToast "Blog deleted successfully") := by
    rw [hd6, hd5, hd4]
    rfl
  have hfst : (handleDeleteBlog db B errs).1 =
      (deleteBlogsStep errs.blogErr (fun b => b.id == B) d6).1 := by
    rw [hd6, hd5, hd4]
    rfl
  have hnone : (deleteBlogsStep errs.blogErr (fun b => b.id == B) d6).2 =
      none := by
    cases hsnd : (deleteBlogsStep errs.blogErr (fun b => b.id == B) d6).2 with
    | none => rfl
    | some m =>
      rw [hout, hsnd] at hsucc
      simp at hsucc
  have hok := deleteBlogsStep_snd_none errs.blogErr (fun b => b.id == B) d6
    hnone
  obtain ⟨hcheck6, hfinrec⟩ :=
    deleteBlogRows_ok_spec d6 (fun b => b.id == B) _ hok
  have hd6bl : d6.blogs = db.blogs := by
    rw [hd6, deleteSearchesStep_blogs, hd5, deleteAnalyticsStep_blogs, hd4,
      childDeletes_blogs]
  have hd6em : d6.emailSubmissions = d5.emailSubmissions := by
    rw [hd6, deleteSearchesStep_emailSubmissions]
  have hrs_sub : ∀ s, s ∈ d6.relatedSearches → s ∈ db.relatedSearches := by
    intro s hsm
    rw [hd6] at hsm
    have h2 := mem_rs_of_deleteSearchesStep _ _ _ _ hsm
    rw [hd5, deleteAnalyticsStep_relatedSearches, hd4,
      childDeletes_relatedSearches] at h2
    exact h2
  have hae_sub : ∀ e, e ∈ d6.analyticsEvents → e ∈ db.analyticsEvents := by
    intro e hem
    rw [hd6] at hem
    have h2 := mem_ae_of_deleteSearchesStep _ _ _ _ hem
    rw [hd5] at h2
    have h3 := mem_of_deleteAnalyticsStep _ _ _ _ h2
    rw [hd4] at h3
    exact childDeletes_mem_analyticsEvents _ _ _ _ h3
  have hfem : (handleDeleteBlog db B errs).1.emailSubmissions =
      d6.emailSubmissions := by
    rw [hfst, hfinrec]
  have hfrs : (handleDeleteBlog db B errs).1.relatedSearches =
      d6.relatedSearches.filter
        (fun s => !((d6.blogs.filter (fun b => b.id == B)).any
          (fun b => s.blog_id == b.id))) := by
    rw [hfst, hfinrec]
  have hfae : (handleDeleteBlog db B errs).1.analyticsEvents =
      d6.analyticsEvents.filter
        (fun e =>
          !((d6.relatedSearches.filter (fun s =>
              (d6.blogs.filter (fun b => b.id == B)).any
                (fun b => s.blog_id == b.id))).any
              (fun s => e.related_search_id == some s.id) ||
            (d6.blogs.filter (fun b => b.id == B)).any
              (fun b => e.blog_id == some b.id))) := by
    rw [hfst, hfinrec]
  have hfwr : (handleDeleteBlog db B errs).1.webResults =
      d6.webResults.filter
        (fun w => !((d6.relatedSearches.filter (fun s =>
          (d6.blogs.filter (fun b => b.id == B)).any
            (fun b => s.blog_id == b.id))).any
          (fun s => w.related_search_id == s.id))) := by
    rw [hfst, hfinrec]
  have hfplc : (handleDeleteBlog db B errs).1.preLandingConfigs =
      d6.preLandingConfigs.filter
        (fun c => !((d6.relatedSearches.filter (fun s =>
          (d6.blogs.filter (fun b => b.id == B)).any
            (fun b => s.blog_id == b.id))).any
          (fun s => c.related_search_id == s.id))) := by
    rw [hfst, hfinrec]
  unfold noDescendants
  refine ⟨?_, ?_, ?_⟩
  · intro s hs hB
    by_cases hs6 : s ∈ d6.relatedSearches
    · obtain ⟨b, hbmem, hbid⟩ := fkConsistent_searches db hfk s hs
      have hbid2 : b.id = B := by rw [hbid, hB]
      have hbd : b ∈ d6.blogs.filter (fun b => b.id == B) :=
        List.mem_filter.mpr ⟨by rw [hd6bl]; exact hbmem, by simp [hbid2]⟩
      have hsdoom : s ∈ d6.relatedSearches.filter (fun s =>
          (d6.blogs.filter (fun b => b.id == B)).any
            (fun b => s.blog_id == b.id)) :=
        List.mem_filter.mpr
          ⟨hs6, List.any_eq_true.mpr ⟨b, hbd, by simp [hB, hbid2]⟩⟩
      refine ⟨?_, ?_, ?_, ?_⟩
      · intro e he
        rw [hfem] at he
        have hni := List.any_eq_false.mp hcheck6 e he
        intro hcon
        exact hni (List.any_eq_true.mpr ⟨s, hsdoom, by simp [hcon]⟩)
      · intro e he
        rw [hfae] at he
        have h2 := (List.mem_filter.mp he).2
        intro hcon
        have hx : (d6.relatedSearches.filter (fun s =>
            (d6.blogs.filter (fun b => b.id == B)).any
              (fun b => s.blog_id == b.id))).any
            (fun s => e.related_search_id == some s.id) = true :=
          List.any_eq_true.mpr ⟨s, hsdoom, by simp [hcon]⟩
        rw [hx] at h2
        simp at h2
      · intro c hc
        rw [hfplc] at hc
        have h2 := (List.mem_filter.mp hc).2
        intro hcon
        have hx : (d6.relatedSearches.filter (fun s =>
            (d6.blogs.filter (fun b => b.id == B)).any
              (fun b => s.blog_id == b.id))).any
            (fun s => c.related_search_id == s.id) = true :=
          List.any_eq_true.mpr ⟨s, hsdoom, by simp [hcon]⟩
        rw [hx] at h2
        simp at h2
      · intro w hw
        rw [hfwr] at hw
        have h2 := (List.mem_filter.mp hw).2
        intro hcon
        have hx : (d6.relatedSearches.filter (fun s =>
            (d6.blogs.filter (fun b => b.id == B)).any
              (fun b => s.blog_id == b.id))).any
            (fun s => w.related_search_id == s.id) = true :=
          List.any_eq_true.mpr ⟨s, hsdoom, by simp [hcon]⟩
        rw [hx] at h2
        simp at h2
    · have hsd5 : s ∈ d5.relatedSearches := by
        rw [hd5, deleteAnalyticsStep_relatedSearches, hd4,
          childDeletes_relatedSearches]
        exact hs
      rcases deleteSearchesStep_fst errs.rsErr (fun s => s.blog_id == B) d5
        with hunch | hok5
      · exfalso
        apply hs6
        rw [hd6, hunch]
        exact hsd5
      · have hd6v : deleteRelatedSearchRows d5 (fun s => s.blog_id == B) =
            Except.ok d6 := by
          rw [hd6]
          exact hok5
        obtain ⟨hchk5, hd6rec⟩ :=
          deleteRelatedSearchRows_ok_spec d5 _ d6 hd6v
        have hsdoom5 : s ∈ d5.relatedSearches.filter
            (fun s => s.blog_id == B) :=
          List.mem_filter.mpr ⟨hsd5, by simp [hB]⟩
        refine ⟨?_, ?_, ?_, ?_⟩
        · intro e he
          rw [hfem, hd6em] at he
          have hni := List.any_eq_false.mp hchk5 e he
          intro hcon
          exact hni (List.any_eq_true.mpr ⟨s, hsdoom5, by simp [hcon]⟩)
        · intro e he
          rw [hfae] at he
          have he6 : e ∈ d6.analyticsEvents := (List.mem_filter.mp he).1
          have hd6ae2 : d6.analyticsEvents = d5.analyticsEvents.filter
              (fun e => !((d5.relatedSearches.filter
                (fun s => s.blog_id == B)).any
                (fun s => e.related_search_id == some s.id))) := by
            rw [hd6rec]
          rw [hd6ae2] at he6
          have h2 := (List.mem_filter.mp he6).2
          intro hcon
          have hx : (d5.relatedSearches.filter (fun s => s.blog_id == B)).any
              (fun s => e.related_search_id == some s.id) = true :=
            List.any_eq_true.mpr ⟨s, hsdoom5, by simp [hcon]⟩
          rw [hx] at h2
          simp at h2
        · intro c hc
          rw [hfplc] at hc
          have hc6 : c ∈ d6.preLandingConfigs := (List.mem_filter.mp hc).1
          have hd6plc2 : d6.preLandingConfigs = d5.preLandingConfigs.filter
              (fun c => !((d5.relatedSearches.filter
                (fun s => s.blog_id == B)).any
                (fun s => c.related_search_id == s.id))) := by
            rw [hd6rec]
          rw [hd6plc2] at hc6
          have h2 := (List.mem_filter.mp hc6).2
          intro hcon
          have hx : (d5.relatedSearches.filter (fun s => s.blog_id == B)).any
              (fun s => c.related_search_id == s.id) = true :=
            List.any_eq_true.mpr ⟨s, hsdoom5, by simp [hcon]⟩
          rw [hx] at h2
          simp at h2
        · intro w hw
          rw [hfwr] at hw
          have hw6 : w ∈ d6.webResults := (List.mem_filter.mp hw).1
          have hd6wr2 : d6.webResults = d5.webResults.filter
              (fun w => !((d5.relatedSearches.filter
                (fun s => s.blog_id == B)).any
                (fun s => w.related_search_id == s.id))) := by
            rw [hd6rec]
          rw [hd6wr2] at hw6
          have h2 := (List.mem_filter.mp hw6).2
          intro hcon
          have hx : (d5.relatedSearches.filter (fun s => s.blog_id == B)).any
              (fun s => w.related_search_id == s.id) = true :=
            List.any_eq_true.mpr ⟨s, hsdoom5, by simp [hcon]⟩
          rw [hx] at h2
          simp at h2
  · intro e he
    rw [hfae] at he
    have hmem := List.mem_filter.mp he
    have hedb : e ∈ db.analyticsEvents := hae_sub e hmem.1
    intro hcon
    obtain ⟨b, hbmem, hbid⟩ := fkConsistent_events_blog db hfk e hedb B hcon
    have hbd : b ∈ d6.blogs.filter (fun b => b.id == B) :=
      List.mem_filter.mpr ⟨by rw [hd6bl]; exact hbmem, by simp [hbid]⟩
    have hx : (d6.blogs.filter (fun b => b.id == B)).any
        (fun b => e.blog_id == some b.id) = true :=
      List.any_eq_true.mpr ⟨b, hbd, by simp [hcon, hbid]⟩
    have h2 := hmem.2
    rw [hx] at h2
    simp at h2
  · intro s hsm
    rw [hfrs] at hsm
    have hmem := List.mem_filter.mp hsm
    have hdb : s ∈ db.relatedSearches := hrs_sub s hmem.1
    intro hcon
    obtain ⟨b, hbmem, hbid⟩ := fkConsistent_searches db hfk s hdb
    have hbid2 : b.id = B := by rw [hbid, hcon]
    have hbd : b ∈ d6.blogs.filter (fun b => b.id == B) :=
      List.mem_filter.mpr ⟨by rw [hd6bl]; exact hbmem, by simp [hbid2]⟩
    have hx : (d6.blogs.filter (fun b => b.id == B)).any
        (fun b => s.blog_id == b.id) = true :=
      List.any_eq_true.mpr ⟨b, hbd, by simp [hcon, hbid2]⟩
    have h2 := hmem.2
    rw [hx] at h2
    simp at h2

/-- Witness for the amended C10: at the concrete store, under the run
with the failed `web_results` delete (which still reports success), the
surviving web result and search do not descend from blog b1. -/
theorem c10_outcome_witness :
    resultB.related_search_id ≠ searchA.id ∧ searchB.blog_id ≠ "b1" := by
  have h := c10_outcome_amended.1 exDb "b1" errsWrFail (by decide) (by decide)
  unfold noDescendants at h
  obtain ⟨h1, h2, h3⟩ := h
  exact ⟨(h1 searchA (by decide) rfl).2.2.2 resultB (by decide),
    h3 searchB (by decide)⟩

/-- Counterexample to C6 as stated: with an `email_submissions` row
referencing search s1, the single `related_searches` delete issued by
`RelatedSearchesManager.tsx` fails with the NO ACTION foreign-key
violation, so the search row itself and the referencing email row both
survive; nothing is deleted. -/
theorem c6_counterexample_simple_delete :
    handleDeleteSearchSimple exDb "s1" = (exDb, some fkEmailViolationMsg) ∧
    searchA ∈ (handleDeleteSearchSimple exDb "s1").1.relatedSearches ∧
    emailA ∈ (handleDeleteSearchSimple exDb "s1").1.emailSubmissions ∧
    emailA.related_search_id = some "s1" := by
  decide

/-- C6 (amended): the part_001 variant deletes the four child tables and
then the search row, always succeeds, and leaves zero rows in those four
tables referencing the id; the `RelatedSearchesManager.tsx` variant
issues only the single `related_searches` delete, which fails with the
email foreign-key violation (deleting nothing) whenever an
`email_submissions` row references an existing search with that id, and
otherwise succeeds with the declared cascades removing the dependent
`web_results`, `pre_landing_config` and `analytics_events` rows. -/
theorem c6_cascade_delete_amended :
    (∀ (db : DB) (id : String),
       (handleDeleteSearchCascade db id).2 = none ∧
       (∀ e, e ∈ (handleDeleteSearchCascade db id).1.emailSubmissions →
          e.related_search_id ≠ some id) ∧
       (∀ e, e ∈ (handleDeleteSearchCascade db id).1.analyticsEvents →
          e.related_search_id ≠ some id) ∧
       (∀ c, c ∈ (handleDeleteSearchCascade db id).1.preLandingConfigs →
          c.related_search_id ≠ id) ∧
       (∀ w, w ∈ (handleDeleteSearchCascade db id).1.webResults →
          w.related_search_id ≠ id) ∧
       (∀ s, s ∈ (handleDeleteSearchCascade db id).1.relatedSearches →
          s.id ≠ id)) ∧
    (∀ (db : DB) (id : String) (s : RelatedSearch) (e : EmailSubmission),
       s ∈ db.relatedSearches → s.id = id → e ∈ db.emailSubmissions →
       e.related_search_id = some id →
       handleDeleteSearchSimple db id = (db, some fkEmailViolationMsg)) ∧
    (∀ (db : DB) (id : String),
       (∀ e, e ∈ db.emailSubmissions → e.related_search_id ≠ some id) →
       (handleDeleteSearchSimple db id).2 = none ∧
       (∀ s, s ∈ (handleDeleteSearchSimple db id).1.relatedSearches →
          s.id ≠ id) ∧
       (∀ s, s ∈ db.relatedSearches → s.id = id →
          (∀ w, w ∈ (handleDeleteSearchSimple db id).1.webResults →
             w.related_search_id ≠ id) ∧
          (∀ c, c ∈ (handleDeleteSearchSimple db id).1.preLandingConfigs →
             c.related_search_id ≠ id) ∧
          (∀ e, e ∈ (handleDeleteSearchSimple db id).1.analyticsEvents →
             e.related_search_id ≠ some id))) := by
  refine ⟨?_, ?_, ?_⟩
  · intro db id
    have hcheck : ((db.emailSubmissions.filter
        (fun e => !(e.related_search_id == some id))).any (fun e =>
        ((db.relatedSearches.filter (fun s => s.id == id))).any
          (fun s => e.related_search_id == some s.id))) = false := by
      rw [List.any_eq_false]
      intro e he
      have he2 := List.mem_filter.mp he
      intro hany
      obtain ⟨s, hsf, hbeq⟩ := List.any_eq_true.mp hany
      have hsid2 : s.id = id := by
        have := (List.mem_filter.mp hsf).2
        simpa using this
      have heq : e.related_search_id = some id := by
        have h2 : e.related_search_id = some s.id := by simpa using hbeq
        rw [h2, hsid2]
      have h3 := he2.2
      rw [heq] at h3
      simp at h3
    have hok := deleteRelatedSearchRows_eq_ok
      { db with
          emailSubmissions := db.emailSubmissions.filter
            (fun e => !(e.related_search_id == some id)),
          analyticsEvents := db.analyticsEvents.filter
            (fun e => !(e.related_search_id == some id)),
          preLandingConfigs := db.preLandingConfigs.filter
            (fun c => !(c.related_search_id == id)),
          webResults := db.webResults.filter
            (fun w => !(w.related_search_id == id)) }
      (fun s => s.id == id) hcheck
    have hrun : handleDeleteSearchCascade db id =
        ({ db with
            emailSubmissions := db.emailSubmissions.filter
              (fun e => !(e.related_search_id == some id)),
            analyticsEvents := (db.analyticsEvents.filter
              (fun e => !(e.related_search_id == some id))).filter
              (fun e => !((db.relatedSearches.filter
                (fun s => s.id == id)).any
                (fun s => e.related_search_id == some s.id))),
            preLandingConfigs := (db.preLandingConfigs.filter
              (fun c => !(c.related_search_id == id))).filter
              (fun c => !((db.relatedSearches.filter
                (fun s => s.id == id)).any
                (fun s => c.related_search_id == s.id))),
            webResults := (db.webResults.filter
              (fun w => !(w.related_search_id == id))).filter
              (fun w => !((db.relatedSearches.filter
                (fun s => s.id == id)).any
                (fun s => w.related_search_id == s.id))),
            relatedSearches := db.relatedSearches.filter
              (fun s => !(s.id == id)) }, none) := by
      show (match deleteRelatedSearchRows
          { db with
              emailSubmissions := db.emailSubmissions.filter
                (fun e => !(e.related_search_id == some id)),
              analyticsEvents := db.analyticsEvents.filter
                (fun e => !(e.related_search_id == some id)),
              preLandingConfigs := db.preLandingConfigs.filter
                (fun c => !(c.related_search_id == id)),
              webResults := db.webResults.filter
                (fun w => !(w.related_search_id == id)) }
          (fun s => s.id == id) with
        | Except.ok db5 => (db5, none)
        | Except.error m =>
          ({ db with
              emailSubmissions := db.emailSubmissions.filter
                (fun e => !(e.related_search_id == some id)),
              analyticsEvents := db.analyticsEvents.filter
                (fun e => !(e.related_search_id == some id)),
              preLandingConfigs := db.preLandingConfigs.filter
                (fun c => !(c.related_search_id == id)),
              webResults := db.webResults.filter
                (fun w => !(w.related_search_id == id)) }, some m)) = _
      rw [hok]
    refine ⟨by rw [hrun], ?_, ?_, ?_, ?_, ?_⟩
    · intro e he
      rw [hrun] at he
      have he2 : e ∈ db.emailSubmissions.filter
          (fun e => !(e.related_search_id == some id)) := he
      have h3 := (List.mem_filter.mp he2).2
      intro hcon
      rw [hcon] at h3
      simp at h3
    · intro e he
      rw [hrun] at he
      have he2 : e ∈ (db.analyticsEvents.filter
          (fun e => !(e.related_search_id == some id))).filter
          (fun e => !((db.relatedSearches.filter (fun s => s.id == id)).any
            (fun s => e.related_search_id == some s.id))) := he
      have h3 := (List.mem_filter.mp (List.mem_filter.mp he2).1).2
      intro hcon
      rw [hcon] at h3
      simp at h3
    · intro c hc
      rw [hrun] at hc
      have hc2 : c ∈ (db.preLandingConfigs.filter
          (fun c => !(c.related_search_id == id))).filter
          (fun c => !((db.relatedSearches.filter (fun s => s.id == id)).any
            (fun s => c.related_search_id == s.id))) := hc
      have h3 := (List.mem_filter.mp (List.mem_filter.mp hc2).1).2
      intro hcon
      rw [hcon] at h3
      simp at h3
    · intro w hw
      rw [hrun] at hw
      have hw2 : w ∈ (db.webResults.filter
          (fun w => !(w.related_search_id == id))).filter
          (fun w => !((db.relatedSearches.filter (fun s => s.id == id)).any
            (fun s => w.related_search_id == s.id))) := hw
      have h3 := (List.mem_filter.mp (List.mem_filter.mp hw2).1).2
      intro hcon
      rw [hcon] at h3
      simp at h3
    · intro s hs
      rw [hrun] at hs
      have hs2 : s ∈ db.relatedSearches.filter (fun s => !(s.id == id)) := hs
      have h3 := (List.mem_filter.mp hs2).2
      intro hcon
      rw [hcon] at h3
      simp at h3
  · intro db id s e hs hsid he hcon
    have hcheck : (db.emailSubmissions.any (fun e =>
        (db.relatedSearches.filter (fun s => s.id == id)).any
          (fun s => e.related_search_id == some s.id))) = true := by
      refine List.any_eq_true.mpr ⟨e, he, ?_⟩
      refine List.any_eq_true.mpr
        ⟨s, List.mem_filter.mpr ⟨hs, by simp [hsid]⟩, ?_⟩
      simp [hcon, hsid]
    have herr := deleteRelatedSearchRows_eq_error db
      (fun s => s.id == id) hcheck
    simp [handleDeleteSearchSimple, herr]
  · intro db id hnoem
    have hcheck : (db.emailSubmissions.any (fun e =>
        (db.relatedSearches.filter (fun s => s.id == id)).any
          (fun s => e.related_search_id == some s.id))) = false := by
      rw [List.any_eq_false]
      intro e he
      intro hany
      obtain ⟨s, hsf, hbeq⟩ := List.any_eq_true.mp hany
      have hsid2 : s.id = id := by
        have := (List.mem_filter.mp hsf).2
        simpa using this
      have heq : e.related_search_id = some id := by
        have h2 : e.related_search_id = some s.id := by simpa using hbeq
        rw [h2, hsid2]
      exact hnoem e he heq
    have hok := deleteRelatedSearchRows_eq_ok db (fun s => s.id == id) hcheck
    have hrun : handleDeleteSearchSimple db id =
        ({ db with
            relatedSearches := db.relatedSearches.filter
              (fun s => !(s.id == id)),
            webResults := db.webResults.filter
              (fun w => !((db.relatedSearches.filter
                (fun s => s.id == id)).any
                (fun s => w.related_search_id == s.id))),
            preLandingConfigs := db.preLandingConfigs.filter
              (fun c => !((db.relatedSearches.filter
                (fun s => s.id == id)).any
                (fun s => c.related_search_id == s.id))),
            analyticsEvents := db.analyticsEvents.filter
              (fun e => !((db.relatedSearches.filter
                (fun s => s.id == id)).any
                (fun s => e.related_search_id == some s.id))) }, none) := by
      simp [handleDeleteSearchSimple, hok]
    refine ⟨by rw [hrun], ?_, ?_⟩
    · intro s hs
      rw [hrun] at hs
      have hs2 : s ∈ db.relatedSearches.filter (fun s => !(s.id == id)) := hs
      have h3 := (List.mem_filter.mp hs2).2
      intro hcon
      rw [hcon] at h3
      simp at h3
    · intro s hs hsid
      refine ⟨?_, ?_, ?_⟩
      · intro w hw
        rw [hrun] at hw
        have hw2 : w ∈ db.webResults.filter
            (fun w => !((db.relatedSearches.filter (fun s => s.id == id)).any
              (fun s => w.related_search_id == s.id))) := hw
        have h3 := (List.mem_filter.mp hw2).2
        intro hcon
        have hx : (db.relatedSearches.filter (fun s => s.id == id)).any
            (fun s2 => w.related_search_id == s2.id) = true :=
          List.any_eq_true.mpr
            ⟨s, List.mem_filter.mpr ⟨hs, by simp [hsid]⟩,
             by simp [hcon, hsid]⟩
        rw [hx] at h3
        simp at h3
      · intro c hc
        rw [hrun] at hc
        have hc2 : c ∈ db.preLandingConfigs.filter
            (fun c => !((db.relatedSearches.filter (fun s => s.id == id)).any
              (fun s => c.related_search_id == s.id))) := hc
        have h3 := (List.mem_filter.mp hc2).2
        intro hcon
        have hx : (db.relatedSearches.filter (fun s => s.id == id)).any
            (fun s2 => c.related_search_id == s2.id) = true :=
          List.any_eq_true.mpr
            ⟨s, List.mem_filter.mpr ⟨hs, by simp [hsid]⟩,
             by simp [hcon, hsid]⟩
        rw [hx] at h3
        simp at h3
      · intro e he
        rw [hrun] at he
        have he2 : e ∈ db.analyticsEvents.filter
            (fun e => !((db.relatedSearches.filter (fun s => s.id == id)).any
              (fun s => e.related_search_id == some s.id))) := he
        have h3 := (List.mem_filter.mp he2).2
        intro hcon
        have hx : (db.relatedSearches.filter (fun s => s.id == id)).any
            (fun s2 => e.related_search_id == some s2.id) = true :=
          List.any_eq_true.mpr
            ⟨s, List.mem_filter.mpr ⟨hs, by simp [hsid]⟩,
             by simp [hcon, hsid]⟩
        rw [hx] at h3
        simp at h3

/-- Witness for the amended C6 at concrete stores: the cascade variant
leaves no reference to s1; the simple variant fails outright when an
email references s1, and with no such email it cascades the web result
away. -/
theorem c6_cascade_delete_witness :
    emailB.related_search_id ≠ some "s1" ∧
    handleDeleteSearchSimple exDb "s1" = (exDb, some fkEmailViolationMsg) ∧
    resultB.related_search_id ≠ "s1" := by
  have h1 := ((c6_cascade_delete_amended.1 exDb "s1").2.1) emailB (by decide)
  have h2 := c6_cascade_delete_amended.2.1 exDb "s1" searchA emailA
    (by decide) rfl (by decide) rfl
  have h3 := (((c6_cascade_delete_amended.2.2 exDbNoEmails "s1"
    (by decide)).2.2) searchA (by decide) rfl).1 resultB (by decide)
  exact ⟨h1, h2, h3⟩

/-- C2 as evaluated on the code: clicking the visit action on `resultA`
(url U) navigates to the pre-landing route carrying no override, and the
subsequent email submission redirects to the stored destination D, not to
U.  The claim says the click carries U and the submission redirects to U;
the dead route-state read in `PreLanding.tsx` documents that intent. -/
theorem c2_visit_override_divergence :
    visitClick "s1" resultA = Navigation.preLanding "s1" none ∧
    handleSubmit (some "reader@example.com") (some "s1")
        (carriedAfterClick "s1" resultA) (some configA) =
      some "https://d.example" ∧
    resultA.url = "https://u.example" ∧
    some "https://d.example" ≠ some resultA.url := by
  refine ⟨rfl, by decide, rfl, by decide⟩

/-- Counterexample to C3 as stated: for a web result owned by a search
with no pre-landing config, the click still navigates to the pre-landing
route; it never becomes a direct navigation to the result url. -/
theorem c3_counterexample_no_direct_navigation :
    visitClick "s2" resultB = Navigation.preLanding "s2" none ∧
    visitClick "s2" resultB ≠ Navigation.direct resultB.url ∧
    (exDb.preLandingConfigs.filter
        (fun c => c.related_search_id == "s2")) = [] := by
  refine ⟨rfl, by decide, by decide⟩

/-- C3 (amended): every visit click navigates to the pre-landing route
for the owning search with no carried destination, regardless of whether
a config exists; when no config exists the pre-landing page renders the
loading placeholder and the submit handler performs no redirect. -/
theorem c3_visit_always_prelanding (searchId : String) (result : WebResult)
    (email : Option String) (sid : Option String) :
    visitClick searchId result = Navigation.preLanding searchId none ∧
    renderPreLanding none = PreLandingView.loading ∧
    handleSubmit email sid none none = none := by
  refine ⟨rfl, rfl, ?_⟩
  unfold handleSubmit
  split
  · rfl
  · simp [jsOr, truthy]

/-- C4: for every fetched list of `WebResult` rows, the displayed order is a
permutation of the input in which every sponsored row precedes every
non-sponsored row, and within each of the two groups the rows appear in
non-decreasing `order_index`. -/
theorem c4_sponsored_ordering (l : List WebResult) :
    List.Perm (sortWebResults l) l ∧
    List.Pairwise
      (fun a b =>
        (b.is_sponsored = true → a.is_sponsored = true) ∧
        (a.is_sponsored = b.is_sponsored → a.order_index ≤ b.order_index))
      (sortWebResults l) := by
  constructor
  · exact List.perm_insertionSort cmpLe l
  · have hs : List.Pairwise cmpLe (sortWebResults l) :=
      List.sorted_insertionSort cmpLe l
    refine hs.imp ?_
    intro a b hab
    unfold cmpLe compareResults at hab
    constructor
    · intro hb
      cases ha : a.is_sponsored
      · rw [ha, hb] at hab; simp at hab
      · rfl
    · intro hsame
      rw [hsame] at hab
      cases hb : b.is_sponsored <;> rw [hb] at hab <;> simp at hab <;> try omega

/-- C5: for every click sequence, the persisted rows get `wr` equal to
their 1-based position in the current selection order (and `order_index`
the 0-based one); deselecting an already-selected phrase and reselecting
it appends it at the end of the selection; and a further selection while
4 are selected leaves the selection unchanged. -/
theorem c5_selection_order_assigns_wr (clicks : List Nat)
    (phrases : List String) :
    (∀ i, i < (selectionAfter clicks).length →
       (handleSaveAllSearches (selectionAfter clicks) phrases).getD i
           ⟨"", 0, 0⟩ =
         ⟨phrases.getD ((selectionAfter clicks).getD i 0) "", i, i + 1⟩) ∧
    (∀ idx, idx ∈ selectionAfter clicks →
       handleSearchSelect (handleSearchSelect (selectionAfter clicks) idx) idx =
         (selectionAfter clicks).filter (fun i => i ≠ idx) ++ [idx]) ∧
    ((selectionAfter clicks).length = 4 →
       ∀ idx, idx ∉ selectionAfter clicks →
         handleSearchSelect (selectionAfter clicks) idx =
           selectionAfter clicks) := by
  refine ⟨?_, ?_, ?_⟩
  · intro i hi
    simp [handleSaveAllSearches, List.getD_eq_getElem?_getD,
      List.getElem?_range hi]
  · intro idx hmem
    have hlen := selectionAfter_length_le clicks
    have hcont : (selectionAfter clicks).contains idx = true :=
      List.elem_iff.mpr hmem
    have h1 : handleSearchSelect (selectionAfter clicks) idx =
        (selectionAfter clicks).filter (fun i => i ≠ idx) := by
      unfold handleSearchSelect
      rw [if_pos hcont]
    rw [h1]
    have hnotmem : idx ∉ (selectionAfter clicks).filter (fun i => i ≠ idx) := by
      simp [List.mem_filter]
    have hcont2 :
        ((selectionAfter clicks).filter (fun i => i ≠ idx)).contains idx
          = false := by
      cases h : ((selectionAfter clicks).filter (fun i => i ≠ idx)).contains idx
      · rfl
      · exact absurd (List.elem_iff.mp h) hnotmem
    have hlt : ((selectionAfter clicks).filter (fun i => i ≠ idx)).length < 4 := by
      have hlt2 : ((selectionAfter clicks).filter (fun i => i ≠ idx)).length
          < (selectionAfter clicks).length :=
        List.length_filter_lt_length_iff_exists.mpr ⟨idx, hmem, by simp⟩
      omega
    unfold handleSearchSelect
    rw [if_neg (by simp [hcont2]), if_pos hlt]
  · intro h4 idx hidx
    have hcont : (selectionAfter clicks).contains idx = false := by
      cases h : (selectionAfter clicks).contains idx
      · rfl
      · exact absurd (List.elem_iff.mp h) hidx
    unfold handleSearchSelect
    rw [if_neg (by simpa [hcont] using hidx), if_neg (by omega)]

/-- Witness for C5: clicking candidates [2, 0, 3, 1] assigns wr 1..4 in
selection order; deselecting and reselecting candidate 0 moves it to the
end; a fifth selection (candidate 5) is ignored. -/
theorem c5_selection_order_witness :
    (handleSaveAllSearches (selectionAfter [2, 0, 3, 1])
        ["pa", "pb", "pc", "pd", "pe", "pf"]).getD 1 ⟨"", 0, 0⟩ =
      ⟨"pa", 1, 2⟩ ∧
    handleSearchSelect (handleSearchSelect (selectionAfter [2, 0, 3, 1]) 0) 0 =
      [2, 3, 1, 0] ∧
    handleSearchSelect (selectionAfter [2, 0, 3, 1]) 5 = [2, 0, 3, 1] := by
  have h := c5_selection_order_assigns_wr [2, 0, 3, 1]
    ["pa", "pb", "pc", "pd", "pe", "pf"]
  refine ⟨?_, ?_, ?_⟩
  · have := h.1 1 (by decide)
    rw [this]
    decide
  · have := h.2.1 0 (by decide)
    rw [this]
    decide
  · have := h.2.2 (by decide) 5 (by decide)
    rw [this]
    decide

/-- C7: for every service reply in full-content mode, the returned
candidate list has exactly 6 entries; its prefix is the non-empty trimmed
lines of the reply in order, truncated to 6, and the remaining positions
hold the placeholder "Related search N for topic" with N the 1-based
position. -/
theorem c7_related_searches_padded_to_six (searchesText : String) :
    (processRelatedSearches searchesText).length = 6 ∧
    (processRelatedSearches searchesText).take
        (cleanSearches searchesText).length = cleanSearches searchesText ∧
    (∀ i, (cleanSearches searchesText).length ≤ i → i < 6 →
       (processRelatedSearches searchesText).getD i "" =
         placeholderSearch (i + 1)) := by
  have hlen6 : (cleanSearches searchesText).length ≤ 6 := by
    unfold cleanSearches
    exact List.length_take_le _ _
  have heq := padSearches_eq (cleanSearches searchesText)
  unfold processRelatedSearches
  rw [heq]
  refine ⟨?_, ?_, ?_⟩
  · simp
    omega
  · simp [List.take_append_of_le_length]
  · intro i hge hlt
    rw [List.getD_eq_getElem?_getD, List.getElem?_append_right hge,
      List.getElem?_map]
    rw [List.getElem?_range' _ _
      (show i - (cleanSearches searchesText).length <
          6 - (cleanSearches searchesText).length by omega)]
    simp only [Option.map_some', Option.getD_some]
    congr 1
    omega

/-- Witness for C7: a two-line reply yields the two trimmed phrases
followed by placeholders at positions 3 to 6. -/
theorem c7_related_searches_witness :
    (processRelatedSearches "best deals online \n\n cheap flights ").length = 6 ∧
    (processRelatedSearches "best deals online \n\n cheap flights ").take 2 =
      ["best deals online", "cheap flights"] ∧
    (processRelatedSearches "best deals online \n\n cheap flights ").getD 2 "" =
      "Related search 3 for topic" := by
  have h := c7_related_searches_padded_to_six "best deals online \n\n cheap flights "
  refine ⟨h.1, ?_, ?_⟩
  · have h2 := h.2.1
    have hc : cleanSearches "best deals online \n\n cheap flights " =
        ["best deals online", "cheap flights"] := by decide
    rw [hc] at h2
    exact h2
  · have h3 := h.2.2 2 (by decide) (by decide)
    rw [h3]
    decide

/-- C8: no tracking call ever propagates a failure: `trackEvent` and
`trackEmailSubmission` always return normally (errors go only to the
console list); a failed IP or country lookup yields the sentinel
"unknown" in the row; and when the store insert itself succeeds the event
row is still written even though both lookups failed. -/
theorem c8_tracking_never_throws (env : TrackEnv) (eventType : String)
    (blogId relatedSearchId source : Option String) (email : String) :
    (∃ r, trackEvent env eventType blogId relatedSearchId source =
        Except.ok r) ∧
    (∃ r, trackEmailSubmission env email relatedSearchId = Except.ok r) ∧
    (∀ row logs,
       trackEvent env eventType blogId relatedSearchId source =
           Except.ok (some row, logs) →
       (env.ipFetch = Except.error () → row.ip_address = "unknown") ∧
       (env.countryFetch row.ip_address = Except.error () →
          row.country = "unknown")) ∧
    (∀ sid, env.sessionId = Except.ok sid →
       (∀ r, env.insertEvent r = Except.ok none) →
       env.ipFetch = Except.error () →
       ∃ row logs,
         trackEvent env eventType blogId relatedSearchId source =
             Except.ok (some row, logs) ∧ row.ip_address = "unknown") := by
  refine ⟨?_, ?_, ?_, ?_⟩
  · unfold trackEvent
    cases h : trackEventBody env eventType blogId relatedSearchId source with
    | ok v =>
      rcases v with ⟨row, err⟩
      cases err <;> exact ⟨_, rfl⟩
    | error e => exact ⟨_, rfl⟩
  · unfold trackEmailSubmission
    cases h : trackEmailSubmissionBody env email relatedSearchId with
    | ok v =>
      rcases v with ⟨row, err⟩
      cases err <;> exact ⟨_, rfl⟩
    | error e => exact ⟨_, rfl⟩
  · intro row logs hres
    unfold trackEvent trackEventBody at hres
    cases hsid : env.sessionId with
    | error e => rw [hsid] at hres; simp at hres
    | ok sid =>
      rw [hsid] at hres
      simp only at hres
      cases hins : env.insertEvent
          { event_type := eventType
            blog_id := jsOrNull blogId
            related_search_id := jsOrNull relatedSearchId
            session_id := sid
            ip_address := getIpAddress env.ipFetch
            user_agent := env.userAgent
            device_type := env.deviceType
            country := getCountry (env.countryFetch (getIpAddress env.ipFetch))
            source := source.getD "direct" } with
      | error e => rw [hins] at hres; simp at hres
      | ok err =>
        rw [hins] at hres
        have hrow :
            ({ event_type := eventType
               blog_id := jsOrNull blogId
               related_search_id := jsOrNull relatedSearchId
               session_id := sid
               ip_address := getIpAddress env.ipFetch
               user_agent := env.userAgent
               device_type := env.deviceType
               country := getCountry (env.countryFetch (getIpAddress env.ipFetch))
               source := source.getD "direct" } : AnalyticsEvent) = row := by
          cases err <;>
            simp only [Except.ok.injEq, Prod.mk.injEq, Option.some.injEq]
              at hres <;>
            exact hres.1
        subst hrow
        constructor
        · intro hip
          show getIpAddress env.ipFetch = "unknown"
          rw [hip]
          rfl
        · intro hcf
          show getCountry (env.countryFetch (getIpAddress env.ipFetch)) = "unknown"
          have hcf2 : env.countryFetch (getIpAddress env.ipFetch) =
              Except.error () := hcf
          rw [hcf2]
          rfl
  · intro sid hsid hins hip
    refine ⟨{ event_type := eventType
              blog_id := jsOrNull blogId
              related_search_id := jsOrNull relatedSearchId
              session_id := sid
              ip_address := getIpAddress env.ipFetch
              user_agent := env.userAgent
              device_type := env.deviceType
              country := getCountry (env.countryFetch (getIpAddress env.ipFetch))
              source := source.getD "direct" }, [], ?_, ?_⟩
    · unfold trackEvent trackEventBody
      rw [hsid]
      simp only [hins]
    · show getIpAddress env.ipFetch = "unknown"
      rw [hip]
      rfl

/-- Witness for C8: with both lookups failing, the written row carries the
sentinel in both the ip and country columns. -/
theorem c8_tracking_witness :
    exTrackRow.ip_address = "unknown" ∧ exTrackRow.country = "unknown" := by
  have h := (c8_tracking_never_throws exTrackEnv "page_view" none none none
    "reader@example.com").2.2.1 exTrackRow [] rfl
  exact ⟨h.1 rfl, h.2 rfl⟩

set_option maxRecDepth 8000 in
/-- Counterexample to C9 as stated: the export emits the author cell (a
free-text field) raw, neither wrapped in double quotes nor with its
embedded double quotes doubled. -/
theorem c9_counterexample_author_not_escaped :
    exportToCSV [blogQ] =
      "ID,Title,Slug,Author,Status,Content\nb9,\"Hello\",hello,Jane \"JJ\" Doe,published,\"Body...\"" ∧
    (blogCsvCells blogQ).getD 3 "" ≠ quoteWrap (escapeQuotes blogQ.author) := by
  refine ⟨by decide, by decide⟩

/-- C9 (amended): the produced CSV text is the header row followed by one
comma-joined row per record; in each row the title and content cells are
wrapped in double quotes with embedded double quotes doubled (the content
truncated to the first 100 characters of the escaped text, with an
ellipsis appended inside the quotes), while the id, slug, author and
status cells are emitted raw; the escaping doubles every double quote. -/
theorem c9_export_escaping_amended (data : List Blog) :
    exportToCSV data =
      String.intercalate "\n"
        (csvHeader ::
          data.map (fun b => String.intercalate "," (blogCsvCells b))) ∧
    (∀ b, b ∈ data →
       (blogCsvCells b).getD 1 "" = quoteWrap (escapeQuotes b.title) ∧
       (blogCsvCells b).getD 5 "" =
         quoteWrap ((escapeQuotes b.content).take 100 ++ "...") ∧
       (blogCsvCells b).getD 0 "" = b.id ∧
       (blogCsvCells b).getD 2 "" = b.slug ∧
       (blogCsvCells b).getD 3 "" = b.author ∧
       (blogCsvCells b).getD 4 "" = b.status) ∧
    (∀ s : String,
       (escapeQuotes s).toList.count '"' = 2 * s.toList.count '"') := by
  refine ⟨rfl, ?_, ?_⟩
  · intro b _
    exact ⟨rfl, rfl, rfl, rfl, rfl, rfl⟩
  · intro s
    show (s.toList.foldr
        (fun c acc => if c = '"' then '"' :: '"' :: acc else c :: acc)
        []).count '"' = 2 * s.toList.count '"'
    generalize s.toList = cs
    induction cs with
    | nil => rfl
    | cons c cs ih =>
      simp only [List.foldr_cons]
      by_cases hc : c = '"'
      · subst hc
        simp only [if_pos rfl]
        simp [List.count_cons, ih]
        omega
      · simp only [if_neg hc]
        have hbc : ('"' == c) = false := by
          cases h : ('"' == c)
          · rfl
          · exact absurd (beq_iff_eq.mp h).symm hc
        simp [List.count_cons, ih, hbc, hc]

/-- Witness for the amended C9 at a concrete record: the title cell is the
quoted escaped title and the author cell is the raw author. -/
theorem c9_export_witness :
    (blogCsvCells blogA).getD 1 "" = quoteWrap (escapeQuotes blogA.title) ∧
    (blogCsvCells blogA).getD 3 "" = blogA.author := by
  have h := (c9_export_escaping_amended [blogA]).2.1 blogA (by decide)
  exact ⟨h.1, h.2.2.2.2.1⟩

/-- Witness for C4 at a concrete list: the sorted output is a permutation
of the fetched rows. -/
theorem c4_sponsored_ordering_witness :
    List.Perm (sortWebResults [resultB, resultA]) [resultB, resultA] :=
  (c4_sponsored_ordering [resultB, resultA]).1

/-- Witness for the amended C3 at a concrete click: the navigation is the
pre-landing route with no carried destination, and a missing config
renders the loading placeholder. -/
theorem c3_visit_always_prelanding_witness :
    visitClick "s9" resultB = Navigation.preLanding "s9" none ∧
    renderPreLanding none = PreLandingView.loading := by
  have h := c3_visit_always_prelanding "s9" resultB (some "reader@example.com")
    (some "s9")
  exact ⟨h.1, h.2.1⟩
